import Mathlib

/-!
Shallow embedding of the NameThatSpotify backend (the single-file Node/Express
server, sockets part). The game state, the guess matcher, the brute-force
guard and the session handlers are translated from the source; machine times
are modelled as `Nat` milliseconds, JS numbers used as scores as `JsNum`
(a natural number or NaN, since `undefined++` yields NaN in JS), and
`Math.random()` as a rational in `[0,1)`.  JS floating-point threshold
comparisons (`>= 0.8`, `>= 0.9`, `* 0.7`) are modelled as exact rational
comparisons by integer cross-multiplication.
-/

namespace NTS

/-- JS number restricted to the values score arithmetic can produce:
a natural number or NaN (`undefined + 1` is NaN in JS). -/
inductive JsNum where
  | num : Nat → JsNum
  | nan : JsNum
deriving DecidableEq

/-- Association-list lookup: first binding wins (JS object key access). -/
def alookup {κ : Type} {α : Type} [DecidableEq κ] (k : κ) : List (κ × α) → Option α
  | [] => none
  | (k', v) :: rest => if k' = k then some v else alookup k rest

/-- Association-list assignment: replace the first binding in place, append a
fresh key at the end (JS object property assignment keeps insertion order). -/
def aset {κ : Type} {α : Type} [DecidableEq κ] (k : κ) (v : α) : List (κ × α) → List (κ × α)
  | [] => [(k, v)]
  | (k', v') :: rest => if k' = k then (k, v) :: rest else (k', v') :: aset k v rest

/-- Association-list deletion (JS `delete obj[k]`). -/
def adel {κ : Type} {α : Type} [DecidableEq κ] (k : κ) : List (κ × α) → List (κ × α)
  | [] => []
  | (k', v') :: rest => if k' = k then adel k rest else (k', v') :: adel k rest

/-- JS `Set.prototype.add`: insertion order, no duplicates. -/
def jsSetAdd (x : String) (l : List String) : List String :=
  if l.contains x then l else l ++ [x]

/-- JS `new Set(array)`: deduplicate keeping first occurrences. -/
def jsSetFromList : List String → List String
  | [] => []
  | x :: rest => x :: (jsSetFromList rest).filter (fun y => y ≠ x)

/-- JS `Set.prototype.delete`. -/
def jsSetDelete (x : String) (l : List String) : List String :=
  l.filter (fun y => y ≠ x)

/-! ## Guess Matcher: text normalization (source `normalizeText`,
`countLetters`, `normalizeTitle`, `normalizeArtist`) -/

/-- JS regex `\w`: ASCII letters, digits and underscore. -/
def isWordChar (c : Char) : Bool :=
  c.isAlphanum || c = '_'

/-- `String.prototype.toLowerCase` (ASCII fragment). -/
def jsLower (l : List Char) : List Char :=
  l.map Char.toLower

/-- Single-pass worker for `removeParens`: outside a match (`none`) emit
characters, opening a buffer at `(`; inside a candidate match (`some buf`,
`buf` reversed) discard everything up to the first `)`, and at end of input
re-emit the unmatched `(` and its buffered characters verbatim. -/
def removeParensAux : Option (List Char) → List Char → List Char
  | none, [] => []
  | some buf, [] => '(' :: buf.reverse
  | none, c :: rest =>
    if c = '(' then removeParensAux (some []) rest
    else c :: removeParensAux none rest
  | some buf, c :: rest =>
    if c = ')' then removeParensAux none rest
    else removeParensAux (some (c :: buf)) rest

/-- Global replace of `/\([^)]*\)/` with the empty string: each `(` paired
with the first `)` after it is removed together with everything between;
a `(` with no later `)` never matches and is kept (characters between such a
`(` and the end of the string cannot start a match either, since no `)`
follows them). -/
def removeParens (l : List Char) : List Char :=
  removeParensAux none l

/-- Replace of `/\s+-\s+.*$/` (no `m` flag): the pattern matches at a position
iff a nonempty whitespace run is followed by `-`, then a nonempty whitespace
run, and the remainder after that run contains no newline (`.` does not match
`\n` and `$` anchors at end of string); a match deletes to end of string. -/
def dashTailMatch (l : List Char) : Bool :=
  let ws := l.takeWhile Char.isWhitespace
  let rest := l.drop ws.length
  match rest with
  | '-' :: after =>
    let ws2 := after.takeWhile Char.isWhitespace
    decide (ws.length > 0) && decide (ws2.length > 0) &&
      !((after.drop ws2.length).contains '\n')
  | _ => false

/-- Leftmost application of `dashTailMatch`, deleting to end of string. -/
def stripDashSuffix : List Char → List Char
  | [] => []
  | c :: rest =>
    if dashTailMatch (c :: rest) then []
    else c :: stripDashSuffix rest

/-- Global replace of `/\s+/` with a single space. -/
def collapseWs : List Char → Bool → List Char
  | [], _ => []
  | c :: rest, inWs =>
    if c.isWhitespace then
      (if inWs then [] else [' ']) ++ collapseWs rest true
    else c :: collapseWs rest false

/-- `String.prototype.trim`. -/
def trimWs (l : List Char) : List Char :=
  ((l.dropWhile Char.isWhitespace).reverse.dropWhile Char.isWhitespace).reverse

/-- Source `normalizeText` (lyrics comparison): lowercase, remove every
character matching `[^\w\s]` (keeping whitespace!), collapse whitespace,
trim.  `normalizeText(null)` returns `''`; callers pass `Option.getD ""`. -/
def normalizeText (s : String) : String :=
  ⟨trimWs (collapseWs ((jsLower s.data).filter
      (fun c => isWordChar c || c.isWhitespace)) false)⟩

/-- Source `countLetters`: lowercase, drop every `[^\w]` character, length
(UTF-16 length agrees with character count on the ASCII fragment). -/
def countLetters (s : String) : Nat :=
  ((jsLower s.data).filter isWordChar).length

/-- Source `normalizeTitle`: lowercase, strip parentheticals, strip the
`\s+-\s+.*$` suffix, remove `[^\w\s]`, collapse whitespace, trim. -/
def normalizeTitle (s : String) : String :=
  ⟨trimWs (collapseWs ((stripDashSuffix (removeParens (jsLower s.data))).filter
      (fun c => isWordChar c || c.isWhitespace)) false)⟩

/-- Source `normalizeArtist`: textually identical to `normalizeTitle`. -/
def normalizeArtist (s : String) : String :=
  normalizeTitle s

/-- `.split(/\s+/).filter(word => word.length > 0)`. -/
def splitWords (l : List Char) : List (List Char) :=
  ((l.splitOnP Char.isWhitespace).filter (fun w => w.length > 0))

/-- Recursive check that `pre` starts `l`. -/
def isPrefixL : List Char → List Char → Bool
  | [], _ => true
  | _ :: _, [] => false
  | a :: as, b :: bs => a = b && isPrefixL as bs

/-- `String.prototype.includes`: `needle` occurs contiguously in `hay`. -/
def includesL (hay needle : List Char) : Bool :=
  if isPrefixL needle hay then true
  else
    match hay with
    | [] => false
    | _ :: rest => includesL rest needle

/-! ## Data model (source `gameState` literal) -/

/-- One logged guess (source `currentGuesses` entries). -/
structure GuessEntry where
  guess : String
  player : String
  timestamp : Nat
deriving DecidableEq

/-- References to the three per-category guess-log arrays.  JS arrays are
heap objects: the live log and any persisted `songStates` entry saved from it
hold references to the *same* arrays — the save spreads
`{ ...gameState.currentGuesses }`, which copies only the three array
references, and the replay restore assigns the stored object back to the live
state.  The model therefore keeps the arrays in an explicit store
(`guessLogStore`, keyed by reference id) and lets states share references;
a push mutates the store entry, visible through every alias. -/
structure GuessLogRefs where
  artist : Nat
  title : Nat
  lyrics : Nat
deriving DecidableEq

/-- Source `guessedParts`: `lyrics` is the JS tri-state `false | true | null`
(`none` models `null`, the lyrics-unavailable marker). -/
structure GuessedParts where
  artist : Bool
  title : Bool
  lyrics : Option Bool
deriving DecidableEq

/-- Persisted per-track state (source `songStates` values). -/
structure SongState where
  isComplete : Bool
  guessedParts : GuessedParts
  bonusAwarded : Bool
  playersWhoGuessed : List String
  currentGuesses : GuessLogRefs
deriving DecidableEq

/-- One brute-force counter (source `bruteForceProtection` entries). -/
structure Protection where
  failedAttempts : Nat
  lastFailedAttempt : Nat
  blockedUntil : Nat
deriving DecidableEq

/-- The two protected keys. -/
inductive PKey where
  | adminPassword
  | gameCode
deriving DecidableEq

/-- Both brute-force counters. -/
structure BruteForceProtection where
  adminPassword : Protection
  gameCode : Protection
deriving DecidableEq

/-- A blocked source address (source `blockedIps` values). -/
structure BlockInfo where
  blockedUntil : Nat
  reason : String
deriving DecidableEq

/-- Resolved track data handed to the round engine by the playback and
lyrics providers (source `songData`). -/
structure Song where
  id : String
  name : String
  artists : List String
  lyrics : Option String
  lyricsAvailable : Bool
deriving DecidableEq

/-- The mutable game state (source `gameState`; the playlist-scraping
bookkeeping and the Spotify access token are plumbing for the excluded
playback provider and are not part of the model). -/
structure GameState where
  currentSong : Option Song
  players : List (Nat × String)
  scores : List (String × JsNum)
  isPlaying : Bool
  guessedParts : GuessedParts
  trackStatus : List (String × String)
  songStates : List (String × SongState)
  bonusAwarded : Bool
  playersWhoGuessed : List String
  activeUsernames : List String
  currentGuesses : GuessLogRefs
  guessLogStore : List (Nat × List GuessEntry)
  nextLogId : Nat
  lastGuessTimestamps : List (String × Nat)
  gameCode : Option String
  gameCodeExpiry : Option Nat
  adminConnected : Bool
  bruteForceProtection : BruteForceProtection
  blockedIps : List (String × BlockInfo)
  socketToIp : List (Nat × String)
deriving DecidableEq

/-- The initial `gameState` literal. -/
def initialGameState : GameState where
  currentSong := none
  players := []
  scores := []
  isPlaying := false
  guessedParts := { artist := false, title := false, lyrics := some false }
  trackStatus := []
  songStates := []
  bonusAwarded := false
  playersWhoGuessed := []
  activeUsernames := []
  currentGuesses := { artist := 0, title := 1, lyrics := 2 }
  guessLogStore := [(0, []), (1, []), (2, [])]
  nextLogId := 3
  lastGuessTimestamps := []
  gameCode := none
  gameCodeExpiry := none
  adminConnected := false
  bruteForceProtection :=
    { adminPassword := { failedAttempts := 0, lastFailedAttempt := 0, blockedUntil := 0 }
      gameCode := { failedAttempts := 0, lastFailedAttempt := 0, blockedUntil := 0 } }
  blockedIps := []
  socketToIp := []

/-- Select one brute-force counter. -/
def getProt (k : PKey) (st : GameState) : Protection :=
  match k with
  | .adminPassword => st.bruteForceProtection.adminPassword
  | .gameCode => st.bruteForceProtection.gameCode

/-- Store one brute-force counter. -/
def setProt (k : PKey) (p : Protection) (st : GameState) : GameState :=
  match k with
  | .adminPassword =>
    { st with bruteForceProtection := { st.bruteForceProtection with adminPassword := p } }
  | .gameCode =>
    { st with bruteForceProtection := { st.bruteForceProtection with gameCode := p } }

/-! ## Game code management (source `generateGameCode`, `resetGameCode`,
`extendGameCode`, `checkGameCodeExpiry`) -/

/-- Source `generateGameCode`: `Math.floor(100000 + Math.random() * 900000)`,
with `Math.random()` modelled as a rational `q` in `[0,1)`. -/
def generateGameCode (q : ℚ) : ℤ :=
  ⌊(100000 : ℚ) + q * 900000⌋

/-- JS truthiness of an optional string (`null` and `''` are falsy). -/
def jsTruthyStr : Option String → Bool
  | none => false
  | some s => s ≠ ""

/-- JS test `gameState.gameCodeExpiry && Date.now() > gameState.gameCodeExpiry`
(an absent or zero expiry is falsy and skips the comparison). -/
def jsExpired (e : Option Nat) (now : Nat) : Bool :=
  match e with
  | none => false
  | some t => t ≠ 0 && now > t

/-- A fresh `{ artist: [], title: [], lyrics: [] }` assignment: three new,
distinct array objects, modelled as fresh store ids. -/
def allocLogs (st : GameState) : GameState :=
  { st with
    currentGuesses :=
      { artist := st.nextLogId, title := st.nextLogId + 1, lyrics := st.nextLogId + 2 }
    guessLogStore :=
      aset (st.nextLogId + 2) []
        (aset (st.nextLogId + 1) [] (aset st.nextLogId [] st.guessLogStore))
    nextLogId := st.nextLogId + 3 }

/-- Contents of a guess-log array, read through its reference. -/
def readLog (st : GameState) (r : Nat) : List GuessEntry :=
  (alookup r st.guessLogStore).getD []

/-- Source `resetGameCode`: full session reset.  It clears everything except
`blockedIps` (the kept comment in the source says "keep blocked IPs for
security"); the `gameEnded` broadcast is outside the state model. -/
def resetGameCode (st : GameState) : GameState :=
  allocLogs { st with
    gameCode := none
    gameCodeExpiry := none
    adminConnected := false
    players := []
    scores := []
    activeUsernames := []
    currentSong := none
    isPlaying := false
    guessedParts := { artist := false, title := false, lyrics := some false }
    trackStatus := []
    songStates := []
    bonusAwarded := false
    playersWhoGuessed := []
    lastGuessTimestamps := []
    bruteForceProtection :=
      { adminPassword := { failedAttempts := 0, lastFailedAttempt := 0, blockedUntil := 0 }
        gameCode := { failedAttempts := 0, lastFailedAttempt := 0, blockedUntil := 0 } }
    socketToIp := [] }

/-- Source `extendGameCode`: when a code is active, push the expiry out to
`now + 30` minutes. -/
def extendGameCode (now : Nat) (st : GameState) : GameState :=
  if jsTruthyStr st.gameCode then
    { st with gameCodeExpiry := some (now + 30 * 60 * 1000) }
  else st

/-! ## Brute force protection (source `checkBruteForceProtection`,
`recordFailedAttempt`, `resetFailedAttempts`) -/

/-- Result of `checkBruteForceProtection`. -/
structure CheckResult where
  blocked : Bool
  remainingTime : Nat
deriving DecidableEq

/-- Source `checkBruteForceProtection`: a lockout check whose side effect
resets the failure counter once more than 60s have passed since the last
failure.  `Math.ceil((blockedUntil - now) / 1000)` on a positive difference
is `(d + 999) / 1000` in `Nat`. -/
def checkBruteForce (k : PKey) (now : Nat) (st : GameState) : GameState × CheckResult :=
  let p := getProt k st
  if now < p.blockedUntil then
    (st, { blocked := true, remainingTime := (p.blockedUntil - now + 999) / 1000 })
  else if now - p.lastFailedAttempt > 60000 then
    (setProt k { p with failedAttempts := 0 } st, { blocked := false, remainingTime := 0 })
  else
    (st, { blocked := false, remainingTime := 0 })

/-- Source `recordFailedAttempt`: bump the counter, stamp the failure time,
and lock for one minute from the fifth failure on. -/
def recordFailedAttempt (k : PKey) (now : Nat) (st : GameState) : GameState :=
  let p := getProt k st
  let p := { p with failedAttempts := p.failedAttempts + 1, lastFailedAttempt := now }
  let p := if p.failedAttempts ≥ 5 then { p with blockedUntil := now + 60000 } else p
  setProt k p st

/-- Source `resetFailedAttempts`. -/
def resetFailedAttempts (k : PKey) (st : GameState) : GameState :=
  setProt k { failedAttempts := 0, lastFailedAttempt := 0, blockedUntil := 0 } st

/-! ## Admin authentication (source `POST /api/verify-admin`) -/

/-- Outcome of the admin password check. -/
inductive AdminAuthResult where
  | lockedOut : Nat → AdminAuthResult
  | notConfigured : AdminAuthResult
  | success : String → AdminAuthResult
  | invalidPassword : AdminAuthResult
deriving DecidableEq

/-- Source `POST /api/verify-admin` handler.  `adminPassword` is the
configured `ADMIN_PASSWORD` (empty models an unset variable, which is falsy);
`q` models the `Math.random()` draw used for the fresh code. -/
def verifyAdmin (password adminPassword : String) (now : Nat) (q : ℚ)
    (st : GameState) : GameState × AdminAuthResult :=
  let chk := checkBruteForce .adminPassword now st
  let st1 := chk.1
  if chk.2.blocked then (st1, .lockedOut chk.2.remainingTime)
  else if adminPassword = "" then (st1, .notConfigured)
  else if password = adminPassword then
    let st2 := resetFailedAttempts .adminPassword st1
    let code := toString (generateGameCode q)
    ({ st2 with
        gameCode := some code
        gameCodeExpiry := some (now + 30 * 60 * 1000)
        adminConnected := true }, .success code)
  else (recordFailedAttempt .adminPassword now st1, .invalidPassword)

/-- Source `POST /api/reset-scores`. -/
def resetScores (st : GameState) : GameState :=
  { st with scores := [] }

/-! ## Track status (source `updateTrackStatus`, `getTrackStatus`) -/

/-- Source `updateTrackStatus`. -/
def setTrackStatus (trackId status : String) (st : GameState) : GameState :=
  { st with trackStatus := aset trackId status st.trackStatus }

/-- Source `getTrackStatus`: missing entries read as `'unplayed'`. -/
def getTrackStatus (trackId : String) (st : GameState) : String :=
  (alookup trackId st.trackStatus).getD "unplayed"

/-! ## Player join (source `playerJoin` socket handler) -/

/-- Outcome of a join attempt. -/
inductive JoinResult where
  | noActiveGame
  | invalidCode
  | expired
  | usernameTaken
  | joined
deriving DecidableEq

/-- `Object.keys(players).find(socketId => players[socketId] === playerName)`:
first socket id (insertion order) bound to the name. -/
def findSocketByName (p : String) : List (Nat × String) → Option Nat
  | [] => none
  | (sid, q) :: rest => if q = p then some sid else findSocketByName p rest

/-- Source score initialization inside `playerJoin`:
`if (!gameState.scores[playerName]) gameState.scores[playerName] = 0` —
a missing entry, a zero score and NaN are all falsy and are (re)set to 0. -/
def ensureScore (p : String) (scores : List (String × JsNum)) : List (String × JsNum) :=
  match alookup p scores with
  | none => aset p (.num 0) scores
  | some .nan => aset p (.num 0) scores
  | some (.num 0) => aset p (.num 0) scores
  | some (.num (_ + 1)) => scores

/-- Tail of the `playerJoin` handler once the name has been cleared for use:
bind the socket, mark the name active, ensure a score entry. -/
def bindPlayer (sid : Nat) (playerName : String) (st : GameState) : GameState :=
  { st with
    players := aset sid playerName st.players
    activeUsernames := jsSetAdd playerName st.activeUsernames
    scores := ensureScore playerName st.scores }

/-- Source `playerJoin` socket handler: code validation, expiry check (which
triggers the full reset), the reconnection-takeover test keyed on an existing
score entry, and the final binding. -/
def playerJoin (sid : Nat) (playerName gameCodeInput : String) (now : Nat)
    (st : GameState) : GameState × JoinResult :=
  if !jsTruthyStr st.gameCode then (st, .noActiveGame)
  else if st.gameCode ≠ some gameCodeInput then (st, .invalidCode)
  else if jsExpired st.gameCodeExpiry now then (resetGameCode st, .expired)
  else
    match findSocketByName playerName st.players with
    | some existingSid =>
      if existingSid ≠ sid then
        if (alookup playerName st.scores).isSome then
          -- reconnection takeover: detach the old socket and clear the
          -- name's guess-rate timestamp
          (bindPlayer sid playerName
            { st with
              players := adel existingSid st.players
              lastGuessTimestamps := adel playerName st.lastGuessTimestamps }, .joined)
        else (st, .usernameTaken)
      else (bindPlayer sid playerName st, .joined)
    | none => (bindPlayer sid playerName st, .joined)

/-! ## Disconnect (source `disconnect` socket handler) -/

/-- Source `disconnect` handler: drop the socket binding, delete the name's
guess-rate timestamp unconditionally, and retire the name from
`activeUsernames` when no other live socket still uses it. -/
def disconnectSocket (sid : Nat) (st : GameState) : GameState :=
  let st1 :=
    match alookup sid st.players with
    | some playerName =>
      let st := { st with
        players := adel sid st.players
        lastGuessTimestamps := adel playerName st.lastGuessTimestamps }
      if !(st.players.any (fun kv => kv.2 = playerName)) then
        { st with activeUsernames := jsSetDelete playerName st.activeUsernames }
      else st
    | none => st
  { st1 with socketToIp := adel sid st1.socketToIp }

/-! ## Round start (source `POST /api/play`, state-restore portion) -/

/-- Source `POST /api/play` after the provider calls have resolved into
`songData`: extend the code timer, restore the persisted per-track state if
present (`|| false` coerces a stored `null` lyrics flag to `false`; a missing
lyrics text forces the flag to `null`; the guess-log object is the stored one,
so the live log aliases the persisted arrays), otherwise start a fresh round
with newly allocated logs, then mark the track `'played'` unless already
`'complete'`/`'partial'`. -/
def startRound (song : Song) (now : Nat) (st : GameState) : GameState :=
  let st := { st with isPlaying := true }
  let st := extendGameCode now st
  let st :=
    match alookup song.id st.songStates with
    | some prev =>
      { st with
        currentSong := some song
        guessedParts :=
          { artist := prev.guessedParts.artist
            title := prev.guessedParts.title
            lyrics :=
              if !song.lyricsAvailable then none
              else some (prev.guessedParts.lyrics = some true) }
        bonusAwarded := prev.bonusAwarded
        playersWhoGuessed := jsSetFromList prev.playersWhoGuessed
        currentGuesses := prev.currentGuesses }
    | none =>
      allocLogs { st with
        currentSong := some song
        guessedParts :=
          { artist := false
            title := false
            lyrics := if !song.lyricsAvailable then none else some false }
        bonusAwarded := false
        playersWhoGuessed := [] }
  let cur := getTrackStatus song.id st
  if cur ≠ "complete" && cur ≠ "partial" then setTrackStatus song.id "played" st
  else st

/-! ## Fuzzy word matching (source inline in the `makeGuess` handler; the
artist and title branches carry the same textually-duplicated rule set) -/

/-- The layered word-match rules applied to the normalized actual value and
the normalized guess.  Float thresholds (`>= 0.8`, `* 0.7`, `>= 0.9`) are
modelled as exact rational comparisons by cross-multiplication. -/
def wordsMatch (normalizedActual normalizedGuess : List Char) : Bool :=
  let actualWords := splitWords normalizedActual
  let guessWords := splitWords normalizedGuess
  if actualWords.length > 0 && guessWords.length > 0 then
    let matchingWords := guessWords.filter
      (fun guessWord => actualWords.any (fun actualWord => actualWord = guessWord))
    -- matchPercentage >= 0.8 && matchingWords.length >= min(2, |actual|)
    let minWordsRequired := min 2 actualWords.length
    let c := decide (10 * matchingWords.length ≥
        8 * max actualWords.length guessWords.length) &&
      decide (matchingWords.length ≥ minWordsRequired)
    -- exact equality of the normalized forms
    let c := c || decide (normalizedActual = normalizedGuess)
    -- guess contains ALL actual words, provided |guess| >= 0.7 * |actual|
    let c := c || (decide (10 * guessWords.length ≥ 7 * actualWords.length) &&
      actualWords.all (fun actualWord =>
        guessWords.any (fun guessWord => guessWord = actualWord)))
    -- guess typed without spaces
    let c := c || (decide (guessWords.length = 1) && decide (actualWords.length > 1) &&
      decide (actualWords.flatten = guessWords.flatten))
    -- >= 90% of the significant (length > 2) actual words appear in the guess
    let c := c ||
      (decide (guessWords.length < actualWords.length) &&
        (let significantWords := actualWords.filter (fun w => w.length > 2)
         let matchingSignificant := significantWords.filter (fun actualWord =>
           guessWords.any (fun guessWord => guessWord = actualWord))
         decide (significantWords.length > 0) &&
           decide (10 * matchingSignificant.length ≥ 9 * significantWords.length)))
    -- fewer guess words but every actual word present
    let c := c ||
      (decide (guessWords.length < actualWords.length) &&
        actualWords.all (fun actualWord =>
          guessWords.any (fun guessWord => guessWord = actualWord)))
    c
  else false

/-! ## Guess submission (source `makeGuess` socket handler) -/

/-- The three guessable categories. -/
inductive Category where
  | artist
  | title
  | lyrics
deriving DecidableEq

/-- Validation failures the handler surfaces via `socket.emit`. -/
inductive ValidationErr where
  | lyricsTooShort : Nat → ValidationErr
  | lyricsUnavailable : ValidationErr
deriving DecidableEq

/-- Outcome of a `makeGuess` call, tagged with what the handler emits. -/
inductive GuessResult where
  | noOp
  | throttled
  | validationError : ValidationErr → GuessResult
  | correct : List Category → Bool → GuessResult
  | incorrect
deriving DecidableEq

/-- Whether the handler emits this result to the requesting socket only
(`socket.emit`) rather than broadcasting (`io.emit`); `noOp` emits nothing. -/
def sentToRequesterOnly : GuessResult → Bool
  | .correct _ _ => false
  | _ => true

/-- JS truthiness of an optional guess field. -/
def jsTruthyField : Option String → Bool
  | none => false
  | some s => s ≠ ""

/-- JS `String.prototype.trim`. -/
def trimStr (s : String) : String :=
  ⟨trimWs s.data⟩

/-- Append one supplied guess field (correct or not) to a category's log:
`if (field && field.trim()) push({guess: field.trim(), player, timestamp})`. -/
def pushGuess (field : Option String) (p : String) (ts : Nat)
    (log : List GuessEntry) : List GuessEntry :=
  match field with
  | none => log
  | some s =>
    if s ≠ "" && trimStr s ≠ "" then
      log ++ [{ guess := trimStr s, player := p, timestamp := ts }]
    else log

/-- `gameState.currentGuesses.<category>.push(...)`: mutate the array object
in the store; the change is visible through every reference to that array,
including any persisted `songStates` entry sharing it. -/
def storePush (r : Nat) (field : Option String) (p : String) (ts : Nat)
    (store : List (Nat × List GuessEntry)) : List (Nat × List GuessEntry) :=
  aset r (pushGuess field p ts ((alookup r store).getD [])) store

/-- The logging block at the top of the handler: push the artist, title and
lyrics fields (in source order) onto the live log's arrays. -/
def logGuesses (p : String) (ga gt gl : Option String) (ts : Nat)
    (st : GameState) : GameState :=
  let store :=
    storePush st.currentGuesses.lyrics gl p ts
      (storePush st.currentGuesses.title gt p ts
        (storePush st.currentGuesses.artist ga p ts st.guessLogStore))
  { st with guessLogStore := store }

/-- Score bump `gameState.scores[playerName]++`: a missing entry reads as
`undefined`, and `undefined + 1` is NaN. -/
def bumpScore (p : String) (scores : List (String × JsNum)) : List (String × JsNum) :=
  match alookup p scores with
  | some (.num n) => aset p (.num (n + 1)) scores
  | some .nan => aset p .nan scores
  | none => aset p .nan scores

/-- Artist branch of the handler: only when an artist field was supplied and
the category is still open; `artists.find(...)` is truthy exactly when some
artist matches (a matching artist always has a nonempty, hence truthy, name
because an empty normalized name has no words and cannot match). -/
def checkArtistGuess (p : String) (song : Song) (ga : Option String)
    (st : GameState) : GameState × Bool :=
  if jsTruthyField ga && !st.guessedParts.artist then
    let normalizedGuess := (normalizeArtist (ga.getD "")).data
    if song.artists.any (fun a => wordsMatch (normalizeArtist a).data normalizedGuess) then
      ({ st with
          guessedParts := { st.guessedParts with artist := true }
          scores := bumpScore p st.scores }, true)
    else (st, false)
  else (st, false)

/-- Title branch of the handler. -/
def checkTitleGuess (p : String) (song : Song) (gt : Option String)
    (st : GameState) : GameState × Bool :=
  if jsTruthyField gt && !st.guessedParts.title then
    if wordsMatch (normalizeTitle song.name).data (normalizeTitle (gt.getD "")).data then
      ({ st with
          guessedParts := { st.guessedParts with title := true }
          scores := bumpScore p st.scores }, true)
    else (st, false)
  else (st, false)

/-- Result of the lyrics branch: either a validation error that aborts the
handler (with the state as mutated so far), or the state plus a scored flag. -/
inductive LyricsCheck where
  | err : ValidationErr → GameState → LyricsCheck
  | ok : GameState → Bool → LyricsCheck
deriving DecidableEq

/-- Lyrics branch of the handler: guessing an unavailable category
(`lyrics === null`) or fewer than 12 letters aborts with a validation error;
otherwise the normalized guess must be a substring of the normalized lyrics. -/
def checkLyricsGuess (p : String) (song : Song) (gl : Option String)
    (st : GameState) : LyricsCheck :=
  if jsTruthyField gl && st.guessedParts.lyrics ≠ none then
    if st.guessedParts.lyrics = some false then
      let letterCount := countLetters (gl.getD "")
      if letterCount < 12 then .err (.lyricsTooShort letterCount) st
      else
        let normalizedLyrics := (normalizeText (song.lyrics.getD "")).data
        let normalizedGuess := (normalizeText (gl.getD "")).data
        if includesL normalizedLyrics normalizedGuess then
          .ok { st with
              guessedParts := { st.guessedParts with lyrics := some true }
              scores := bumpScore p st.scores } true
        else .ok st false
    else .ok st false
  else if jsTruthyField gl && st.guessedParts.lyrics = none then
    .err .lyricsUnavailable st
  else .ok st false

/-- Round-completion test (source lines computing `allPartsGuessed`):
false iff some category is open, where a `null` lyrics flag counts as done. -/
def computeAllGuessed (gp : GuessedParts) : Bool :=
  if !gp.artist || !gp.title || (gp.lyrics ≠ none && gp.lyrics ≠ some true) then false
  else true

/-- Persistence block of the handler: store the round state under the track
id (note: before the contributor set and the bonus flag are updated for this
very guess) and update the track status.  `guessedParts` is spread into a
fresh object and `playersWhoGuessed` copied via `Array.from`, but
`currentGuesses: { ...gameState.currentGuesses }` copies only the three array
references — the persisted entry shares the live log's arrays. -/
def saveSongState (songId : String) (allPartsGuessed : Bool) (st : GameState) : GameState :=
  let saved : SongState :=
    { isComplete := allPartsGuessed
      guessedParts := st.guessedParts
      bonusAwarded := st.bonusAwarded
      playersWhoGuessed := st.playersWhoGuessed
      currentGuesses := st.currentGuesses }
  let st := { st with songStates := aset songId saved st.songStates }
  if allPartsGuessed then setTrackStatus songId "complete" st
  else if st.guessedParts.artist || st.guessedParts.title ||
      st.guessedParts.lyrics = some true then
    setTrackStatus songId "partial" st
  else st

/-- Track-status update inside the correct-guess branch. -/
def updateStatusAfterCorrect (songId : String) (allPartsGuessed : Bool)
    (st : GameState) : GameState :=
  let cur := getTrackStatus songId st
  if cur = "played" && !allPartsGuessed then setTrackStatus songId "partial" st
  else if allPartsGuessed then setTrackStatus songId "complete" st
  else st

/-- Contributor/solo-bonus block of the handler (runs only when at least one
category was newly correct): add the player to `playersWhoGuessed`, then award
the bonus iff the round is complete, the bonus is still unawarded and the
contributor set has exactly one member. -/
def finalizeCorrect (playerName : String) (songId : String)
    (correctParts : List Category) (allPartsGuessed : Bool)
    (st : GameState) : GameState × GuessResult :=
  let st := { st with playersWhoGuessed := jsSetAdd playerName st.playersWhoGuessed }
  let (st, bonus) :=
    if allPartsGuessed && !st.bonusAwarded && st.playersWhoGuessed.length = 1 then
      ({ st with
          scores := bumpScore playerName st.scores
          bonusAwarded := true }, true)
    else (st, false)
  let st := updateStatusAfterCorrect songId allPartsGuessed st
  (st, .correct correctParts bonus)

/-- Body of the `makeGuess` handler after the rate limiter has admitted the
guess: logging, the three category branches (a lyrics validation error aborts
keeping the earlier mutations), persistence, and the correctness verdict. -/
def makeGuessCore (playerName : String) (song : Song) (ga gt gl : Option String)
    (ts : Nat) (st : GameState) : GameState × GuessResult :=
  let st2 := logGuesses playerName ga gt gl ts st
  let ra := checkArtistGuess playerName song ga st2
  let rt := checkTitleGuess playerName song gt ra.1
  match checkLyricsGuess playerName song gl rt.1 with
  | .err e st5 => (st5, .validationError e)
  | .ok st5 lyricsScored =>
    let correctParts :=
      (if ra.2 then [Category.artist] else []) ++
      (if rt.2 then [Category.title] else []) ++
      (if lyricsScored then [Category.lyrics] else [])
    let allPartsGuessed := computeAllGuessed st5.guessedParts
    let st6 := saveSongState song.id allPartsGuessed st5
    if correctParts.length > 0 then
      finalizeCorrect playerName song.id correctParts allPartsGuessed st6
    else (st6, .incorrect)

/-- Source `makeGuess` socket handler: drop the event when the socket has no
player or no song is current, throttle to one guess per second per player
name (updating the name's timestamp on an admitted guess), then run the body. -/
def makeGuess (sid : Nat) (ga gt gl : Option String) (now ts : Nat)
    (st : GameState) : GameState × GuessResult :=
  match alookup sid st.players, st.currentSong with
  | some playerName, some song =>
    let lastGuess := (alookup playerName st.lastGuessTimestamps).getD 0
    if now - lastGuess < 1000 then (st, .throttled)
    else
      makeGuessCore playerName song ga gt gl ts
        { st with lastGuessTimestamps := aset playerName now st.lastGuessTimestamps }
  | _, _ => (st, .noOp)

/-! ## Association-list and set lemmas -/

theorem alookup_aset_self {κ α : Type} [DecidableEq κ] (k : κ) (v : α)
    (l : List (κ × α)) : alookup k (aset k v l) = some v := by
  induction l with
  | nil => simp [alookup, aset]
  | cons hd tl ih =>
    obtain ⟨k', v'⟩ := hd
    by_cases h : k' = k <;> simp [alookup, aset, h, ih]

theorem alookup_aset_ne {κ α : Type} [DecidableEq κ] {k k' : κ} (v : α)
    (l : List (κ × α)) (h : k' ≠ k) : alookup k' (aset k v l) = alookup k' l := by
  induction l with
  | nil => simp [alookup, aset, Ne.symm h]
  | cons hd tl ih =>
    obtain ⟨k'', v'⟩ := hd
    by_cases h2 : k'' = k
    · subst h2
      simp [alookup, aset, Ne.symm h]
    · simp only [aset, if_neg h2, alookup]
      by_cases h3 : k'' = k' <;> simp [h3, ih]

theorem alookup_adel_self {κ α : Type} [DecidableEq κ] (k : κ)
    (l : List (κ × α)) : alookup k (adel k l) = none := by
  induction l with
  | nil => simp [alookup, adel]
  | cons hd tl ih =>
    obtain ⟨k', v'⟩ := hd
    by_cases h : k' = k <;> simp [alookup, adel, h, ih]

theorem alookup_adel_ne {κ α : Type} [DecidableEq κ] {k k' : κ}
    (l : List (κ × α)) (h : k' ≠ k) : alookup k' (adel k l) = alookup k' l := by
  induction l with
  | nil => simp [alookup, adel]
  | cons hd tl ih =>
    obtain ⟨k'', v'⟩ := hd
    by_cases h2 : k'' = k
    · subst h2
      simp [alookup, adel, Ne.symm h, ih]
    · simp only [adel, if_neg h2, alookup]
      by_cases h3 : k'' = k' <;> simp [h3, ih]

theorem alookup_aset_isSome {κ α : Type} [DecidableEq κ] {k k' : κ} (v : α)
    {l : List (κ × α)} (h : (alookup k' l).isSome) :
    (alookup k' (aset k v l)).isSome := by
  by_cases hk : k' = k
  · subst hk
    simp [alookup_aset_self]
  · rwa [alookup_aset_ne v l hk]

theorem jsSetAdd_mem (x : String) {y : String} {l : List String}
    (h : y ∈ l) : y ∈ jsSetAdd x l := by
  unfold jsSetAdd
  split <;> simp [h]

theorem jsSetAdd_mem_self (x : String) (l : List String) : x ∈ jsSetAdd x l := by
  unfold jsSetAdd
  by_cases hc : l.contains x
  · simp only [hc, if_true]
    exact List.mem_of_elem_eq_true hc
  · rw [if_neg hc]
    simp

theorem jsSetAdd_length_one {x : String} {l : List String}
    (h : (jsSetAdd x l).length = 1) : l = [] ∨ l = [x] := by
  unfold jsSetAdd at h
  by_cases hc : l.contains x
  · rw [if_pos hc] at h
    match l, h with
    | [y], _ =>
      have hy : x = y := by simpa using List.mem_of_elem_eq_true hc
      right
      rw [hy]
  · rw [if_neg hc] at h
    simp at h
    exact Or.inl h

/-! ## Score-bump lemmas -/

theorem bumpScore_self {p : String} {s : List (String × JsNum)} {n : Nat}
    (h : alookup p s = some (.num n)) :
    alookup p (bumpScore p s) = some (.num (n + 1)) := by
  unfold bumpScore
  rw [h]
  exact alookup_aset_self p _ s

theorem bumpScore_ne {p q : String} (s : List (String × JsNum)) (h : q ≠ p) :
    alookup q (bumpScore p s) = alookup q s := by
  unfold bumpScore
  rcases alookup p s with _ | ⟨n | _⟩ <;> exact alookup_aset_ne _ s h

theorem bumpScore_isSome {p q : String} {s : List (String × JsNum)}
    (h : (alookup q s).isSome) : (alookup q (bumpScore p s)).isSome := by
  unfold bumpScore
  rcases alookup p s with _ | ⟨n | _⟩ <;> exact alookup_aset_isSome _ h

/-! ## Phase characterization lemmas for the `makeGuess` pipeline -/

theorem checkArtistGuess_spec (p : String) (song : Song) (ga : Option String)
    (st : GameState) :
    checkArtistGuess p song ga st = (st, false) ∨
    (st.guessedParts.artist = false ∧
      checkArtistGuess p song ga st =
        ({ st with
            guessedParts := { st.guessedParts with artist := true }
            scores := bumpScore p st.scores }, true)) := by
  unfold checkArtistGuess
  by_cases h1 : jsTruthyField ga
  · by_cases h2 : st.guessedParts.artist
    · left
      simp [h1, h2]
    · by_cases h3 : song.artists.any
        (fun a => wordsMatch (normalizeArtist a).data (normalizeArtist (ga.getD "")).data)
      · right
        have h2' : st.guessedParts.artist = false := by simpa using h2
        refine ⟨h2', ?_⟩
        simp [h1, h2', h3]
      · left
        simp [h1, h3]
  · left
    simp [h1]

theorem checkArtistGuess_of_guessed (p : String) (song : Song) (ga : Option String)
    (st : GameState) (h : st.guessedParts.artist = true) :
    checkArtistGuess p song ga st = (st, false) := by
  unfold checkArtistGuess
  simp [h]

theorem checkTitleGuess_spec (p : String) (song : Song) (gt : Option String)
    (st : GameState) :
    checkTitleGuess p song gt st = (st, false) ∨
    (st.guessedParts.title = false ∧
      checkTitleGuess p song gt st =
        ({ st with
            guessedParts := { st.guessedParts with title := true }
            scores := bumpScore p st.scores }, true)) := by
  unfold checkTitleGuess
  by_cases h1 : jsTruthyField gt
  · by_cases h2 : st.guessedParts.title
    · left
      simp [h1, h2]
    · by_cases h3 : wordsMatch (normalizeTitle song.name).data
        (normalizeTitle (gt.getD "")).data
      · right
        refine ⟨by simpa using h2, ?_⟩
        simp [h1, h2, h3]
      · left
        simp [h1, h3]
  · left
    simp [h1]

theorem checkTitleGuess_of_guessed (p : String) (song : Song) (gt : Option String)
    (st : GameState) (h : st.guessedParts.title = true) :
    checkTitleGuess p song gt st = (st, false) := by
  unfold checkTitleGuess
  simp [h]

theorem checkLyricsGuess_spec (p : String) (song : Song) (gl : Option String)
    (st : GameState) :
    (∃ e, checkLyricsGuess p song gl st = .err e st) ∨
    checkLyricsGuess p song gl st = .ok st false ∨
    (st.guessedParts.lyrics = some false ∧
      checkLyricsGuess p song gl st =
        .ok { st with
            guessedParts := { st.guessedParts with lyrics := some true }
            scores := bumpScore p st.scores } true) := by
  unfold checkLyricsGuess
  by_cases h1 : jsTruthyField gl
  · match hgp : st.guessedParts.lyrics with
    | none =>
      left
      exact ⟨.lyricsUnavailable, by simp [h1, hgp]⟩
    | some true =>
      right; left
      simp [h1, hgp]
    | some false =>
      by_cases h2 : countLetters (gl.getD "") < 12
      · left
        exact ⟨.lyricsTooShort (countLetters (gl.getD "")), by simp [h1, hgp, h2]⟩
      · by_cases h3 : includesL (normalizeText (song.lyrics.getD "")).data
          (normalizeText (gl.getD "")).data
        · right; right
          exact ⟨rfl, by simp [h1, h2, h3]⟩
        · right; left
          simp [h1, hgp, h2, h3]
  · right; left
    simp [h1]

theorem checkLyricsGuess_err_state (p : String) (song : Song) (gl : Option String)
    (st st' : GameState) (e : ValidationErr)
    (h : checkLyricsGuess p song gl st = .err e st') : st' = st := by
  rcases checkLyricsGuess_spec p song gl st with ⟨e', he⟩ | he | ⟨_, he⟩ <;>
    rw [he] at h <;> cases h <;> rfl

theorem logGuesses_frame (p : String) (ga gt gl : Option String) (ts : Nat)
    (st : GameState) :
    (logGuesses p ga gt gl ts st).scores = st.scores ∧
    (logGuesses p ga gt gl ts st).players = st.players ∧
    (logGuesses p ga gt gl ts st).guessedParts = st.guessedParts ∧
    (logGuesses p ga gt gl ts st).bonusAwarded = st.bonusAwarded ∧
    (logGuesses p ga gt gl ts st).playersWhoGuessed = st.playersWhoGuessed ∧
    (logGuesses p ga gt gl ts st).songStates = st.songStates ∧
    (logGuesses p ga gt gl ts st).currentSong = st.currentSong ∧
    (logGuesses p ga gt gl ts st).lastGuessTimestamps = st.lastGuessTimestamps := by
  unfold logGuesses
  exact ⟨rfl, rfl, rfl, rfl, rfl, rfl, rfl, rfl⟩

theorem saveSongState_frame (songId : String) (apg : Bool) (st : GameState) :
    (saveSongState songId apg st).scores = st.scores ∧
    (saveSongState songId apg st).players = st.players ∧
    (saveSongState songId apg st).guessedParts = st.guessedParts ∧
    (saveSongState songId apg st).bonusAwarded = st.bonusAwarded ∧
    (saveSongState songId apg st).playersWhoGuessed = st.playersWhoGuessed ∧
    (saveSongState songId apg st).currentSong = st.currentSong ∧
    (saveSongState songId apg st).lastGuessTimestamps = st.lastGuessTimestamps ∧
    (saveSongState songId apg st).currentGuesses = st.currentGuesses := by
  simp only [saveSongState, setTrackStatus]
  split
  · exact ⟨rfl, rfl, rfl, rfl, rfl, rfl, rfl, rfl⟩
  · split
    · exact ⟨rfl, rfl, rfl, rfl, rfl, rfl, rfl, rfl⟩
    · exact ⟨rfl, rfl, rfl, rfl, rfl, rfl, rfl, rfl⟩

theorem updateStatusAfterCorrect_frame (songId : String) (apg : Bool)
    (st : GameState) :
    (updateStatusAfterCorrect songId apg st).scores = st.scores ∧
    (updateStatusAfterCorrect songId apg st).players = st.players ∧
    (updateStatusAfterCorrect songId apg st).guessedParts = st.guessedParts ∧
    (updateStatusAfterCorrect songId apg st).bonusAwarded = st.bonusAwarded ∧
    (updateStatusAfterCorrect songId apg st).playersWhoGuessed = st.playersWhoGuessed ∧
    (updateStatusAfterCorrect songId apg st).songStates = st.songStates ∧
    (updateStatusAfterCorrect songId apg st).lastGuessTimestamps = st.lastGuessTimestamps := by
  simp only [updateStatusAfterCorrect, setTrackStatus, getTrackStatus]
  split
  · exact ⟨rfl, rfl, rfl, rfl, rfl, rfl, rfl⟩
  · split
    · exact ⟨rfl, rfl, rfl, rfl, rfl, rfl, rfl⟩
    · exact ⟨rfl, rfl, rfl, rfl, rfl, rfl, rfl⟩

theorem checkArtistGuess_shape {p : String} {song : Song} {ga : Option String}
    {st st' : GameState} {b : Bool} (h : checkArtistGuess p song ga st = (st', b)) :
    st'.scores = (if b then bumpScore p st.scores else st.scores) ∧
    st'.guessedParts.artist = (st.guessedParts.artist || b) ∧
    st'.guessedParts.title = st.guessedParts.title ∧
    st'.guessedParts.lyrics = st.guessedParts.lyrics ∧
    st'.bonusAwarded = st.bonusAwarded ∧
    st'.playersWhoGuessed = st.playersWhoGuessed ∧
    st'.players = st.players ∧
    st'.songStates = st.songStates ∧
    st'.lastGuessTimestamps = st.lastGuessTimestamps ∧
    st'.currentSong = st.currentSong := by
  rcases checkArtistGuess_spec p song ga st with hs | ⟨h0, hs⟩ <;> rw [hs] at h
  · injection h with h1 h2
    subst h1; subst h2
    simp
  · injection h with h1 h2
    subst h1; subst h2
    simp [h0]

theorem checkTitleGuess_shape {p : String} {song : Song} {gt : Option String}
    {st st' : GameState} {b : Bool} (h : checkTitleGuess p song gt st = (st', b)) :
    st'.scores = (if b then bumpScore p st.scores else st.scores) ∧
    st'.guessedParts.artist = st.guessedParts.artist ∧
    st'.guessedParts.title = (st.guessedParts.title || b) ∧
    st'.guessedParts.lyrics = st.guessedParts.lyrics ∧
    st'.bonusAwarded = st.bonusAwarded ∧
    st'.playersWhoGuessed = st.playersWhoGuessed ∧
    st'.players = st.players ∧
    st'.songStates = st.songStates ∧
    st'.lastGuessTimestamps = st.lastGuessTimestamps ∧
    st'.currentSong = st.currentSong := by
  rcases checkTitleGuess_spec p song gt st with hs | ⟨h0, hs⟩ <;> rw [hs] at h
  · injection h with h1 h2
    subst h1; subst h2
    simp
  · injection h with h1 h2
    subst h1; subst h2
    simp [h0]

theorem checkLyricsGuess_ok_shape {p : String} {song : Song} {gl : Option String}
    {st st' : GameState} {b : Bool} (h : checkLyricsGuess p song gl st = .ok st' b) :
    st'.scores = (if b then bumpScore p st.scores else st.scores) ∧
    st'.guessedParts.artist = st.guessedParts.artist ∧
    st'.guessedParts.title = st.guessedParts.title ∧
    st'.guessedParts.lyrics = (if b then some true else st.guessedParts.lyrics) ∧
    st'.bonusAwarded = st.bonusAwarded ∧
    st'.playersWhoGuessed = st.playersWhoGuessed ∧
    st'.players = st.players ∧
    st'.songStates = st.songStates ∧
    st'.lastGuessTimestamps = st.lastGuessTimestamps ∧
    st'.currentSong = st.currentSong := by
  rcases checkLyricsGuess_spec p song gl st with ⟨e, hs⟩ | hs | ⟨h0, hs⟩ <;>
    rw [hs] at h
  · cases h
  · cases h
    simp
  · cases h
    simp

/-- The artist branch never touches the guess-log references or the store. -/
theorem checkArtistGuess_log_frame {p : String} {song : Song} {ga : Option String}
    {st st' : GameState} {b : Bool} (h : checkArtistGuess p song ga st = (st', b)) :
    st'.currentGuesses = st.currentGuesses ∧ st'.guessLogStore = st.guessLogStore := by
  rcases checkArtistGuess_spec p song ga st with hs | ⟨_, hs⟩ <;> rw [hs] at h <;>
    injection h with h1 h2 <;> subst h1 <;> exact ⟨rfl, rfl⟩

/-- The title branch never touches the guess-log references or the store. -/
theorem checkTitleGuess_log_frame {p : String} {song : Song} {gt : Option String}
    {st st' : GameState} {b : Bool} (h : checkTitleGuess p song gt st = (st', b)) :
    st'.currentGuesses = st.currentGuesses ∧ st'.guessLogStore = st.guessLogStore := by
  rcases checkTitleGuess_spec p song gt st with hs | ⟨_, hs⟩ <;> rw [hs] at h <;>
    injection h with h1 h2 <;> subst h1 <;> exact ⟨rfl, rfl⟩

/-- Logging leaves the reference triple itself unchanged (it mutates the
arrays in the store, not which arrays the live log points to). -/
theorem logGuesses_refs (p : String) (ga gt gl : Option String) (ts : Nat)
    (st : GameState) :
    (logGuesses p ga gt gl ts st).currentGuesses = st.currentGuesses := rfl

/-- Unfolding of the store after logging: the three category pushes in
source order. -/
theorem logGuesses_store (p : String) (ga gt gl : Option String) (ts : Nat)
    (st : GameState) :
    (logGuesses p ga gt gl ts st).guessLogStore =
      storePush st.currentGuesses.lyrics gl p ts
        (storePush st.currentGuesses.title gt p ts
          (storePush st.currentGuesses.artist ga p ts st.guessLogStore)) := rfl

/-- A push only ever appends, and a supplied field with nonempty trim does
append an entry. -/
theorem pushGuess_append (field : Option String) (p : String) (ts : Nat)
    (log : List GuessEntry) :
    ∃ e, pushGuess field p ts log = log ++ e ∧
      (∀ s, field = some s → s ≠ "" → trimStr s ≠ "" → e ≠ []) := by
  rcases field with _ | s
  · exact ⟨[], by simp [pushGuess], fun s hs => by cases hs⟩
  · by_cases h : (s ≠ "" && trimStr s ≠ "") = true
    · refine ⟨[{ guess := trimStr s, player := p, timestamp := ts }], ?_, ?_⟩
      · simp only [pushGuess, if_pos h]
      · intro s' hs' _ _
        simp
    · refine ⟨[], ?_, ?_⟩
      · simp only [pushGuess, if_neg h]
        simp
      · intro s' hs' h1 h2
        injection hs' with hs'
        subst hs'
        simp [h1, h2] at h
/-- Reading any array of the store after a push sees at most an appended
suffix; reading the pushed array with a nonempty-trim field sees a strictly
longer array. -/
theorem storePush_read_append (r r' : Nat) (field : Option String) (p : String)
    (ts : Nat) (store : List (Nat × List GuessEntry)) :
    ∃ e, (alookup r' (storePush r field p ts store)).getD [] =
        (alookup r' store).getD [] ++ e ∧
      (r' = r → ∀ s, field = some s → s ≠ "" → trimStr s ≠ "" → e ≠ []) := by
  by_cases hr : r' = r
  · subst hr
    obtain ⟨e, he, hne⟩ := pushGuess_append field p ts ((alookup r' store).getD [])
    refine ⟨e, ?_, fun _ => hne⟩
    rw [storePush, alookup_aset_self]
    simp only [Option.getD_some]
    exact he
  · refine ⟨[], ?_, fun h => absurd h hr⟩
    rw [storePush, alookup_aset_ne _ _ hr]
    simp

/-- Reading any array after the three logging pushes sees an appended
suffix, strictly longer on the lyrics array when a nonempty-trim lyrics
field was supplied. -/
theorem readTriple_append (a t l : Nat) (ga gt gl : Option String) (p : String)
    (ts : Nat) (store : List (Nat × List GuessEntry)) (r : Nat) :
    ∃ e, (alookup r (storePush l gl p ts (storePush t gt p ts
        (storePush a ga p ts store)))).getD [] =
      (alookup r store).getD [] ++ e ∧
      (r = l → ∀ s, gl = some s → s ≠ "" → trimStr s ≠ "" → e ≠ []) := by
  obtain ⟨e1, he1, _⟩ := storePush_read_append a r ga p ts store
  obtain ⟨e2, he2, _⟩ := storePush_read_append t r gt p ts
    (storePush a ga p ts store)
  obtain ⟨e3, he3, hne3⟩ := storePush_read_append l r gl p ts
    (storePush t gt p ts (storePush a ga p ts store))
  refine ⟨e1 ++ e2 ++ e3, ?_, ?_⟩
  · rw [he3, he2, he1]
    simp [List.append_assoc]
  · intro hr s hgl h1 h2 hc
    exact hne3 hr s hgl h1 h2 (List.append_eq_nil.mp hc).2

/-- Characterization of the contributor/solo-bonus block. -/
theorem finalizeCorrect_spec (p songId : String) (parts : List Category)
    (apg : Bool) (st : GameState) :
    (apg = true → st.bonusAwarded = false →
      (jsSetAdd p st.playersWhoGuessed).length = 1 →
      finalizeCorrect p songId parts apg st =
        (updateStatusAfterCorrect songId apg
          { st with
              playersWhoGuessed := jsSetAdd p st.playersWhoGuessed
              scores := bumpScore p st.scores
              bonusAwarded := true },
         .correct parts true)) ∧
    ((apg = true ∧ st.bonusAwarded = false ∧
        (jsSetAdd p st.playersWhoGuessed).length = 1 → False) →
      finalizeCorrect p songId parts apg st =
        (updateStatusAfterCorrect songId apg
          { st with playersWhoGuessed := jsSetAdd p st.playersWhoGuessed },
         .correct parts false)) := by
  constructor
  · intro h1 h2 h3
    unfold finalizeCorrect
    simp [h1, h2, h3]
  · intro hno
    unfold finalizeCorrect
    by_cases h1 : apg <;> by_cases h2 : st.bonusAwarded <;>
      by_cases h3 : (jsSetAdd p st.playersWhoGuessed).length = 1 <;>
      simp [h1, h2, h3] at hno ⊢

/-- Decomposition of a correct-guess outcome of the handler body: the
contributor set gains the guesser, the bonus flag is exactly the solo-sweep
condition evaluated with this guess included, and the player's score rises by
one per newly-correct category plus one more when the bonus fires. -/
theorem makeGuessCore_correct_spec {p : String} {song : Song}
    {ga gt gl : Option String} {ts : Nat} {st st' : GameState}
    {parts : List Category} {bonus : Bool}
    (h : makeGuessCore p song ga gt gl ts st = (st', .correct parts bonus)) :
    parts ≠ [] ∧
    st'.playersWhoGuessed = jsSetAdd p st.playersWhoGuessed ∧
    bonus = (computeAllGuessed st'.guessedParts && !st.bonusAwarded &&
      decide ((jsSetAdd p st.playersWhoGuessed).length = 1)) ∧
    st'.bonusAwarded = (st.bonusAwarded || bonus) ∧
    (∀ n, alookup p st.scores = some (.num n) →
      alookup p st'.scores = some (.num (n + parts.length + (if bonus then 1 else 0)))) := by
  unfold makeGuessCore at h
  dsimp only at h
  obtain ⟨hf1, hf2, hf3, hf4, hf5, hf6, hf7, hf8⟩ := logGuesses_frame p ga gt gl ts st
  rcases hA : checkArtistGuess p song ga (logGuesses p ga gt gl ts st) with ⟨st3, a⟩
  rw [hA] at h
  obtain ⟨hA1, hA2, hA3, hA4, hA5, hA6, hA7, hA8, hA9, hA10⟩ := checkArtistGuess_shape hA
  dsimp only at h
  rcases hT : checkTitleGuess p song gt st3 with ⟨st4, t⟩
  rw [hT] at h
  obtain ⟨hT1, hT2, hT3, hT4, hT5, hT6, hT7, hT8, hT9, hT10⟩ := checkTitleGuess_shape hT
  dsimp only at h
  rcases hL : checkLyricsGuess p song gl st4 with ⟨e, st5⟩ | ⟨st5, l⟩
  · rw [hL] at h
    simp at h
  · rw [hL] at h
    obtain ⟨hL1, hL2, hL3, hL4, hL5, hL6, hL7, hL8, hL9, hL10⟩ := checkLyricsGuess_ok_shape hL
    dsimp only at h
    set L : List Category :=
      (if a then [Category.artist] else []) ++
      (if t then [Category.title] else []) ++
      (if l then [Category.lyrics] else []) with hLdef
    set apg : Bool := computeAllGuessed st5.guessedParts with hapg
    set st6 : GameState := saveSongState song.id apg st5 with hst6
    obtain ⟨hs1, hs2, hs3, hs4, hs5, hs6, hs7, hs8⟩ := saveSongState_frame song.id apg st5
    have hbA : st6.bonusAwarded = st.bonusAwarded := by
      rw [hst6, hs4, hL5, hT5, hA5, hf4]
    have hpwg : st6.playersWhoGuessed = st.playersWhoGuessed := by
      rw [hst6, hs5, hL6, hT6, hA6, hf5]
    have hlen : L.length =
        (if a then 1 else 0) + (if t then 1 else 0) + (if l then 1 else 0) := by
      rw [hLdef]
      rcases a <;> rcases t <;> rcases l <;> rfl
    have hscore5 : ∀ n, alookup p st.scores = some (.num n) →
        alookup p st5.scores = some (.num (n + (if a then 1 else 0) +
          (if t then 1 else 0) + (if l then 1 else 0))) := by
      intro n hn
      have h2 : alookup p (logGuesses p ga gt gl ts st).scores = some (.num n) := by
        rw [hf1]
        exact hn
      have h3 : alookup p st3.scores = some (.num (n + (if a then 1 else 0))) := by
        rw [hA1]
        rcases a
        · simpa using h2
        · simpa using bumpScore_self h2
      have h4 : alookup p st4.scores =
          some (.num (n + (if a then 1 else 0) + (if t then 1 else 0))) := by
        rw [hT1]
        rcases t
        · simpa using h3
        · simpa using bumpScore_self h3
      rw [hL1]
      rcases l
      · simpa using h4
      · simpa using bumpScore_self h4
    by_cases hlenpos : L.length > 0
    · rw [if_pos hlenpos] at h
      by_cases hC : apg = true ∧ st6.bonusAwarded = false ∧
          (jsSetAdd p st6.playersWhoGuessed).length = 1
      · obtain ⟨hc1, hc2, hc3⟩ := hC
        rw [(finalizeCorrect_spec p song.id L apg st6).1 hc1 hc2 hc3] at h
        obtain ⟨hu1, hu2, hu3, hu4, hu5, hu6, hu7⟩ :=
          updateStatusAfterCorrect_frame song.id apg
            { st6 with
                playersWhoGuessed := jsSetAdd p st6.playersWhoGuessed
                scores := bumpScore p st6.scores
                bonusAwarded := true }
        injection h with hst hres
        injection hres with hparts hbonus
        subst hst
        subst hparts
        subst hbonus
        have hgp2 : computeAllGuessed
            (updateStatusAfterCorrect song.id apg
              { st6 with
                  playersWhoGuessed := jsSetAdd p st6.playersWhoGuessed
                  scores := bumpScore p st6.scores
                  bonusAwarded := true }).guessedParts = apg := by
          rw [hu3]
          show computeAllGuessed st6.guessedParts = apg
          rw [hst6, hs3, hapg]
        refine ⟨?_, ?_, ?_, ?_, ?_⟩
        · intro hnil
          rw [hnil] at hlenpos
          simp at hlenpos
        · rw [hu5]
          show jsSetAdd p st6.playersWhoGuessed = jsSetAdd p st.playersWhoGuessed
          rw [hpwg]
        · rw [hgp2, hc1]
          have hba0 : st.bonusAwarded = false := by
            rw [← hbA]
            exact hc2
          rw [hpwg] at hc3
          simp [hba0, hc3]
        · rw [hu4]
          show true = (st.bonusAwarded || true)
          simp
        · intro n hn
          rw [hu1]
          show alookup p (bumpScore p st6.scores) = _
          rw [hst6, hs1]
          have hb := bumpScore_self (hscore5 n hn)
          rw [hb]
          simp only [Option.some.injEq, JsNum.num.injEq, hlen]
          split_ifs <;> omega
      · rw [(finalizeCorrect_spec p song.id L apg st6).2 (fun hcon => hC hcon)] at h
        obtain ⟨hu1, hu2, hu3, hu4, hu5, hu6, hu7⟩ :=
          updateStatusAfterCorrect_frame song.id apg
            { st6 with playersWhoGuessed := jsSetAdd p st6.playersWhoGuessed }
        injection h with hst hres
        injection hres with hparts hbonus
        subst hst
        subst hparts
        subst hbonus
        have hgp2 : computeAllGuessed
            (updateStatusAfterCorrect song.id apg
              { st6 with
                  playersWhoGuessed := jsSetAdd p st6.playersWhoGuessed }).guessedParts
            = apg := by
          rw [hu3]
          show computeAllGuessed st6.guessedParts = apg
          rw [hst6, hs3, hapg]
        refine ⟨?_, ?_, ?_, ?_, ?_⟩
        · intro hnil
          rw [hnil] at hlenpos
          simp at hlenpos
        · rw [hu5]
          show jsSetAdd p st6.playersWhoGuessed = jsSetAdd p st.playersWhoGuessed
          rw [hpwg]
        · rw [hgp2]
          rw [hbA, hpwg] at hC
          rcases hx : apg <;> rcases hy : st.bonusAwarded <;>
            by_cases hz : (jsSetAdd p st.playersWhoGuessed).length = 1 <;>
            simp [hx, hy, hz] at hC ⊢
        · rw [hu4]
          show st6.bonusAwarded = (st.bonusAwarded || false)
          rw [hbA]
          simp
        · intro n hn
          rw [hu1]
          show alookup p st6.scores = _
          rw [hst6, hs1]
          have hb := hscore5 n hn
          rw [hb]
          simp only [Option.some.injEq, JsNum.num.injEq, hlen]
          rw [if_neg Bool.false_ne_true]
          split_ifs <;> omega
    · rw [if_neg hlenpos] at h
      simp at h

/-- Unfolding of `computeAllGuessed`. -/
theorem computeAllGuessed_iff (gp : GuessedParts) :
    computeAllGuessed gp = true ↔
      gp.artist = true ∧ gp.title = true ∧
        (gp.lyrics = none ∨ gp.lyrics = some true) := by
  unfold computeAllGuessed
  rcases gp with ⟨a, t, l⟩
  rcases a <;> rcases t <;> rcases l with _ | (_ | _) <;> simp

/-- A validation-error outcome of the handler body keeps the contributor set,
the bonus flag, the persisted song-state map (as a map of references) and the
lyrics flag unchanged; the store holds exactly the logged pushes, which are
visible through any persisted entry sharing the live arrays. -/
theorem makeGuessCore_validationError_spec {p : String} {song : Song}
    {ga gt gl : Option String} {ts : Nat} {st st' : GameState} {e : ValidationErr}
    (h : makeGuessCore p song ga gt gl ts st = (st', .validationError e)) :
    st'.playersWhoGuessed = st.playersWhoGuessed ∧
    st'.bonusAwarded = st.bonusAwarded ∧
    st'.songStates = st.songStates ∧
    st'.guessedParts.lyrics = st.guessedParts.lyrics ∧
    st'.players = st.players ∧
    st'.lastGuessTimestamps = st.lastGuessTimestamps ∧
    st'.currentGuesses = st.currentGuesses ∧
    st'.guessLogStore = (logGuesses p ga gt gl ts st).guessLogStore := by
  unfold makeGuessCore at h
  dsimp only at h
  obtain ⟨hf1, hf2, hf3, hf4, hf5, hf6, hf7, hf8⟩ := logGuesses_frame p ga gt gl ts st
  rcases hA : checkArtistGuess p song ga (logGuesses p ga gt gl ts st) with ⟨st3, a⟩
  rw [hA] at h
  obtain ⟨hA1, hA2, hA3, hA4, hA5, hA6, hA7, hA8, hA9, hA10⟩ := checkArtistGuess_shape hA
  obtain ⟨hAc, hAs⟩ := checkArtistGuess_log_frame hA
  dsimp only at h
  rcases hT : checkTitleGuess p song gt st3 with ⟨st4, t⟩
  rw [hT] at h
  obtain ⟨hT1, hT2, hT3, hT4, hT5, hT6, hT7, hT8, hT9, hT10⟩ := checkTitleGuess_shape hT
  obtain ⟨hTc, hTs⟩ := checkTitleGuess_log_frame hT
  dsimp only at h
  rcases hL : checkLyricsGuess p song gl st4 with ⟨e', st5⟩ | ⟨st5, l⟩
  · have hst5 : st5 = st4 := checkLyricsGuess_err_state _ _ _ _ _ _ hL
    rw [hL] at h
    dsimp only at h
    injection h with h1 h2
    subst h1
    subst hst5
    refine ⟨?_, ?_, ?_, ?_, ?_, ?_, ?_, ?_⟩
    · rw [hT6, hA6, hf5]
    · rw [hT5, hA5, hf4]
    · rw [hT8, hA8, hf6]
    · rw [hT4, hA4]
      have : (logGuesses p ga gt gl ts st).guessedParts.lyrics =
          st.guessedParts.lyrics := by rw [hf3]
      exact this
    · rw [hT7, hA7, hf2]
    · rw [hT9, hA9, hf8]
    · rw [hTc, hAc, logGuesses_refs]
    · rw [hTs, hAs]
  · rw [hL] at h
    dsimp only at h
    by_cases hlen : ((if a then [Category.artist] else []) ++
        (if t then [Category.title] else []) ++
        (if l then [Category.lyrics] else [])).length > 0
    · rw [if_pos hlen] at h
      unfold finalizeCorrect at h
      by_cases hb : (computeAllGuessed st5.guessedParts &&
          !(saveSongState song.id (computeAllGuessed st5.guessedParts) st5).bonusAwarded &&
          decide ((jsSetAdd p (saveSongState song.id (computeAllGuessed st5.guessedParts)
            st5).playersWhoGuessed).length = 1)) = true
      all_goals simp only [hb] at h
      all_goals simp at h
    · rw [if_neg hlen] at h
      simp at h

/-- The handler body can only raise the bonus flag, never clear it. -/
theorem makeGuessCore_bonus_latch {p : String} {song : Song}
    {ga gt gl : Option String} {ts : Nat} {st : GameState}
    (hb : st.bonusAwarded = true) :
    ((makeGuessCore p song ga gt gl ts st).1).bonusAwarded = true := by
  obtain ⟨hf1, hf2, hf3, hf4, hf5, hf6, hf7, hf8⟩ := logGuesses_frame p ga gt gl ts st
  unfold makeGuessCore
  dsimp only
  rcases hA : checkArtistGuess p song ga (logGuesses p ga gt gl ts st) with ⟨st3, a⟩
  obtain ⟨hA1, hA2, hA3, hA4, hA5, hA6, hA7, hA8, hA9, hA10⟩ := checkArtistGuess_shape hA
  dsimp only
  rcases hT : checkTitleGuess p song gt st3 with ⟨st4, t⟩
  obtain ⟨hT1, hT2, hT3, hT4, hT5, hT6, hT7, hT8, hT9, hT10⟩ := checkTitleGuess_shape hT
  dsimp only
  rcases hL : checkLyricsGuess p song gl st4 with ⟨e, st5⟩ | ⟨st5, l⟩
  · have hst5 : st5 = st4 := checkLyricsGuess_err_state _ _ _ _ _ _ hL
    subst hst5
    dsimp only
    rw [hT5, hA5, hf4, hb]
  · obtain ⟨hL1, hL2, hL3, hL4, hL5, hL6, hL7, hL8, hL9, hL10⟩ :=
      checkLyricsGuess_ok_shape hL
    dsimp only
    obtain ⟨hs1, hs2, hs3, hs4, hs5, hs6, hs7, hs8⟩ :=
      saveSongState_frame song.id (computeAllGuessed st5.guessedParts) st5
    have hb6 : (saveSongState song.id (computeAllGuessed st5.guessedParts)
        st5).bonusAwarded = true := by
      rw [hs4, hL5, hT5, hA5, hf4, hb]
    by_cases hlen : ((if a then [Category.artist] else []) ++
        (if t then [Category.title] else []) ++
        (if l then [Category.lyrics] else [])).length > 0
    · rw [if_pos hlen]
      unfold finalizeCorrect
      dsimp only
      split
      · obtain ⟨hu1, hu2, hu3, hu4, hu5, hu6, hu7⟩ :=
          updateStatusAfterCorrect_frame song.id (computeAllGuessed st5.guessedParts)
            { saveSongState song.id (computeAllGuessed st5.guessedParts) st5 with
                playersWhoGuessed := jsSetAdd p (saveSongState song.id
                  (computeAllGuessed st5.guessedParts) st5).playersWhoGuessed
                scores := bumpScore p (saveSongState song.id
                  (computeAllGuessed st5.guessedParts) st5).scores
                bonusAwarded := true }
        rw [hu4]
      · obtain ⟨hu1, hu2, hu3, hu4, hu5, hu6, hu7⟩ :=
          updateStatusAfterCorrect_frame song.id (computeAllGuessed st5.guessedParts)
            { saveSongState song.id (computeAllGuessed st5.guessedParts) st5 with
                playersWhoGuessed := jsSetAdd p (saveSongState song.id
                  (computeAllGuessed st5.guessedParts) st5).playersWhoGuessed }
        rw [hu4]
        exact hb6
    · rw [if_neg hlen]
      exact hb6

/-- An admitted guess runs the handler body on the state with the player's
guess-rate timestamp set to `now`. -/
theorem makeGuess_eq_core {sid : Nat} {p : String} {song : Song}
    {ga gt gl : Option String} {now ts : Nat} {st : GameState}
    (h1 : alookup sid st.players = some p)
    (h2 : st.currentSong = some song)
    (h3 : ¬(now - (alookup p st.lastGuessTimestamps).getD 0 < 1000)) :
    makeGuess sid ga gt gl now ts st =
      makeGuessCore p song ga gt gl ts
        { st with lastGuessTimestamps := aset p now st.lastGuessTimestamps } := by
  unfold makeGuess
  rw [h1, h2]
  dsimp only
  rw [if_neg h3]

/-- A guess within 1000ms of the name's recorded timestamp is rejected with
no state change at all. -/
theorem makeGuess_throttled {sid : Nat} {p : String} {song : Song}
    {ga gt gl : Option String} {now ts : Nat} {st : GameState}
    (h1 : alookup sid st.players = some p)
    (h2 : st.currentSong = some song)
    (h3 : now - (alookup p st.lastGuessTimestamps).getD 0 < 1000) :
    makeGuess sid ga gt gl now ts st = (st, .throttled) := by
  unfold makeGuess
  rw [h1, h2]
  dsimp only
  rw [if_pos h3]

/-! ## Claim theorems -/

/-- C1. Solo-sweep bonus: (a) when a guess makes all available categories
solved, the bonus has not yet been awarded this round, and the guesser is the
only contributor, the `makeGuess` call increments that player's score by one
point per newly-correct category plus exactly one bonus point (so 4 in total
when all three categories became correct in that call) and sets
`bonusAwarded`; (b) if any other player had already scored a category earlier
in the round, completing the remaining categories awards no bonus; (c) the
`bonusAwarded` latch is never cleared by a later guess in the round. -/
theorem C1_solo_sweep_bonus :
    (∀ (st : GameState) (sid : Nat) (ga gt gl : Option String) (now ts : Nat)
        (p : String) (song : Song) (st' : GameState) (parts : List Category)
        (bonus : Bool) (s : Nat),
      alookup sid st.players = some p →
      st.currentSong = some song →
      st.bonusAwarded = false →
      (st.playersWhoGuessed = [] ∨ st.playersWhoGuessed = [p]) →
      alookup p st.scores = some (.num s) →
      makeGuess sid ga gt gl now ts st = (st', .correct parts bonus) →
      computeAllGuessed st'.guessedParts = true →
      bonus = true ∧ st'.bonusAwarded = true ∧
        alookup p st'.scores = some (.num (s + parts.length + 1)) ∧
        (parts.length = 3 → alookup p st'.scores = some (.num (s + 4)))) ∧
    (∀ (st : GameState) (sid : Nat) (ga gt gl : Option String) (now ts : Nat)
        (p q : String) (song : Song) (st' : GameState) (parts : List Category)
        (bonus : Bool) (s : Nat),
      alookup sid st.players = some p →
      st.currentSong = some song →
      q ∈ st.playersWhoGuessed → q ≠ p →
      alookup p st.scores = some (.num s) →
      makeGuess sid ga gt gl now ts st = (st', .correct parts bonus) →
      bonus = false ∧ st'.bonusAwarded = st.bonusAwarded ∧
        alookup p st'.scores = some (.num (s + parts.length))) ∧
    (∀ (st : GameState) (sid : Nat) (ga gt gl : Option String) (now ts : Nat),
      st.bonusAwarded = true →
      ((makeGuess sid ga gt gl now ts st).1).bonusAwarded = true) := by
  refine ⟨?_, ?_, ?_⟩
  · intro st sid ga gt gl now ts p song st' parts bonus s h1 h2 hb hpw hs hmk hall
    by_cases hth : now - (alookup p st.lastGuessTimestamps).getD 0 < 1000
    · rw [makeGuess_throttled h1 h2 hth] at hmk
      simp at hmk
    · rw [makeGuess_eq_core h1 h2 hth] at hmk
      obtain ⟨hne, hcontrib, hbonus, hlatch, hscore⟩ := makeGuessCore_correct_spec hmk
      have hone : (jsSetAdd p st.playersWhoGuessed).length = 1 := by
        rcases hpw with hpw | hpw <;> rw [hpw] <;> simp [jsSetAdd]
      have hbonus' : bonus = true := by
        rw [hbonus, hall, hb]
        simp [hone]
      refine ⟨hbonus', ?_, ?_, ?_⟩
      · rw [hlatch, hbonus']
        simp
      · have := hscore s hs
        rw [hbonus'] at this
        simpa using this
      · intro h3
        have := hscore s hs
        rw [hbonus', h3] at this
        simpa using this
  · intro st sid ga gt gl now ts p q song st' parts bonus s h1 h2 hq hqp hs hmk
    by_cases hth : now - (alookup p st.lastGuessTimestamps).getD 0 < 1000
    · rw [makeGuess_throttled h1 h2 hth] at hmk
      simp at hmk
    · rw [makeGuess_eq_core h1 h2 hth] at hmk
      obtain ⟨hne, hcontrib, hbonus, hlatch, hscore⟩ := makeGuessCore_correct_spec hmk
      have hlen : (jsSetAdd p st.playersWhoGuessed).length ≠ 1 := by
        intro hone
        rcases jsSetAdd_length_one hone with hnil | hsingle
        · rw [hnil] at hq
          simp at hq
        · rw [hsingle] at hq
          simp at hq
          exact hqp hq
      have hbonus' : bonus = false := by
        rw [hbonus]
        simp [hlen]
      refine ⟨hbonus', ?_, ?_⟩
      · rw [hlatch, hbonus']
        simp
      · have := hscore s hs
        rw [hbonus'] at this
        simpa using this
  · intro st sid ga gt gl now ts hb
    unfold makeGuess
    rcases hp : alookup sid st.players with _ | p
    · dsimp only
      exact hb
    · rcases hsong : st.currentSong with _ | song
      · dsimp only
        exact hb
      · dsimp only
        by_cases hth : now - (alookup p st.lastGuessTimestamps).getD 0 < 1000
        · rw [if_pos hth]
          exact hb
        · rw [if_neg hth]
          exact makeGuessCore_bonus_latch hb

/-! ## Concrete demonstration states used by witnesses and counterexamples -/

/-- A resolved track with lyrics available. -/
def demoSong : Song :=
  { id := "t1", name := "Yellow", artists := ["Coldplay"]
    lyrics := some "look at the stars look how they shine for you"
    lyricsAvailable := true }

/-- A resolved track without lyrics. -/
def demoSongNoLyrics : Song :=
  { id := "t2", name := "Song", artists := ["X"], lyrics := none
    lyricsAvailable := false }

/-- A session with an active code. -/
def demoBase : GameState :=
  { initialGameState with gameCode := some "123456", gameCodeExpiry := some 99999999 }

/-- The session after player `alice` has joined on socket 1. -/
def demoJoined : GameState := (playerJoin 1 "alice" "123456" 1000 demoBase).1

/-- The session with the demo track playing. -/
def demoRound : GameState := startRound demoSong 1000 demoJoined

/-- C1 witness: in the demo round, `alice` (score 0, no contributor yet)
guesses artist, title and lyrics in one call and ends at 4 points with the
bonus latched. -/
theorem C1_solo_sweep_bonus_witness :
    ((makeGuess 1 (some "Coldplay") (some "Yellow")
        (some "look how they shine for you") 5000 5000 demoRound).1).bonusAwarded
      = true ∧
    alookup "alice" ((makeGuess 1 (some "Coldplay") (some "Yellow")
        (some "look how they shine for you") 5000 5000 demoRound).1).scores
      = some (.num 4) := by
  have h := C1_solo_sweep_bonus.1 demoRound 1 (some "Coldplay") (some "Yellow")
    (some "look how they shine for you") 5000 5000 "alice" demoSong
    ((makeGuess 1 (some "Coldplay") (some "Yellow")
        (some "look how they shine for you") 5000 5000 demoRound).1)
    [Category.artist, Category.title, Category.lyrics] true 0
    (by decide) (by decide) (by decide) (Or.inl (by decide)) (by decide)
    (by decide) (by decide)
  refine ⟨h.2.1, ?_⟩
  have h4 := h.2.2.2 (by decide)
  simpa using h4

/-! ## C2: guess-rate throttle vs. reconnection -/

/-- Round with no lyrics for the throttle scenarios. -/
def c2Round : GameState := startRound demoSongNoLyrics 1000 demoJoined

/-- The round after an admitted (incorrect) guess by `alice` at t=5000. -/
def c2AfterGuess : GameState := (makeGuess 1 (some "zzz") none none 5000 5000 c2Round).1

/-- The session after `alice` disconnects at t=5100 and rejoins on socket 2
at t=5200. -/
def c2Rejoined : GameState :=
  (playerJoin 2 "alice" "123456" 5200 (disconnectSocket 1 c2AfterGuess)).1

/-- C2 counterexample: `alice`'s guess at t=5000 is admitted; after a
disconnect-and-rejoin under the same name her guess at t=5500 — only 500ms
after the last allowed guess — is admitted as well (processed to `incorrect`)
instead of being denied by the throttle, because both the disconnect handler
and the reconnection takeover delete the name's timestamp. -/
theorem C2_counterexample :
    (makeGuess 1 (some "zzz") none none 5000 5000 c2Round).2 = .incorrect ∧
    alookup "alice" c2AfterGuess.lastGuessTimestamps = some 5000 ∧
    (makeGuess 2 (some "zzz") none none 5500 5500 c2Rejoined).2 = .incorrect := by
  refine ⟨by decide, by decide, by decide⟩

/-- C2 as amended.  (a) The throttle is keyed by player name: while the
name's timestamp is present, a guess less than 1000ms later is denied with no
state change.  (b) But the `disconnect` handler deletes the name's timestamp
unconditionally (not only when no live connection remains).  (c) The
reconnection takeover in `playerJoin` deletes it as well — so a rapid
disconnect-and-rejoin clears the throttle. -/
theorem C2_throttle_timestamps :
    (∀ (st : GameState) (sid : Nat) (p : String) (song : Song)
        (ga gt gl : Option String) (now ts t : Nat),
      alookup sid st.players = some p →
      st.currentSong = some song →
      alookup p st.lastGuessTimestamps = some t →
      now - t < 1000 →
      makeGuess sid ga gt gl now ts st = (st, .throttled)) ∧
    (∀ (st : GameState) (sid : Nat) (p : String),
      alookup sid st.players = some p →
      alookup p ((disconnectSocket sid st).lastGuessTimestamps) = none) ∧
    (∀ (st : GameState) (sid nsid : Nat) (p code : String) (now : Nat),
      st.gameCode = some code → code ≠ "" →
      jsExpired st.gameCodeExpiry now = false →
      findSocketByName p st.players = some sid →
      sid ≠ nsid →
      (alookup p st.scores).isSome →
      alookup p (((playerJoin nsid p code now st).1).lastGuessTimestamps) = none) := by
  refine ⟨?_, ?_, ?_⟩
  · intro st sid p song ga gt gl now ts t h1 h2 h3 h4
    apply makeGuess_throttled h1 h2
    rw [h3]
    exact h4
  · intro st sid p h
    unfold disconnectSocket
    rw [h]
    dsimp only
    split
    · exact alookup_adel_self p st.lastGuessTimestamps
    · exact alookup_adel_self p st.lastGuessTimestamps
  · intro st sid nsid p code now hcode hne hexp hfind hsid hscore
    unfold playerJoin
    rw [hcode]
    rw [if_neg (by simp [jsTruthyStr, hne])]
    rw [if_neg (by simp)]
    rw [if_neg (by simp [hexp])]
    rw [hfind]
    dsimp only
    rw [if_pos hsid]
    rw [if_pos hscore]
    unfold bindPlayer
    dsimp only
    exact alookup_adel_self p st.lastGuessTimestamps

/-- C2 witness: with `alice` still connected (no disconnect between), a
second guess 500ms after the admitted one is throttled and leaves the state
untouched; and a disconnect deletes her timestamp. -/
theorem C2_throttle_timestamps_witness :
    makeGuess 1 (some "q") none none 5500 5500 c2AfterGuess =
      (c2AfterGuess, .throttled) ∧
    alookup "alice" ((disconnectSocket 1 c2AfterGuess).lastGuessTimestamps) = none := by
  constructor
  · exact C2_throttle_timestamps.1 c2AfterGuess 1 "alice" demoSongNoLyrics
      (some "q") none none 5500 5500 5000 (by decide) (by decide) (by decide)
      (by decide)
  · exact C2_throttle_timestamps.2.1 c2AfterGuess 1 "alice" (by decide)

/-! ## C3: side effects of validation errors -/

/-- State after a first, incorrect artist guess by `alice` at t=5000: the
guess is logged and the handler persists the round into `songStates["t1"]`,
whose entry carries the very same array references as the live guess log
(the save is a shallow copy of the reference triple). -/
def c3Partial : GameState :=
  (makeGuess 1 (some "zzz") none none 5000 5000 demoRound).1

/-- C3 counterexample: a too-short lyrics guess returns a ValidationError,
yet the call is not side-effect free — the guess-rate timestamp for `alice`
moves to the call time, the live lyrics guess log grows, and the lyrics log
seen through the persisted `songStates["t1"]` entry grows with it, because
the persisted entry shares its guess-log arrays with the live log. -/
theorem C3_counterexample :
    (makeGuess 1 none none (some "hi") 7000 7000 c3Partial).2 =
      .validationError (.lyricsTooShort 2) ∧
    alookup "alice" c3Partial.lastGuessTimestamps = some 5000 ∧
    alookup "alice"
        ((makeGuess 1 none none (some "hi") 7000 7000 c3Partial).1).lastGuessTimestamps
      = some 7000 ∧
    ((alookup "t1" c3Partial.songStates).map fun prev =>
        (readLog c3Partial prev.currentGuesses.lyrics).length) = some 0 ∧
    ((alookup "t1"
        ((makeGuess 1 none none (some "hi") 7000 7000 c3Partial).1).songStates).map
      fun prev =>
        (readLog ((makeGuess 1 none none (some "hi") 7000 7000 c3Partial).1)
          prev.currentGuesses.lyrics).length) = some 1 := by
  refine ⟨by decide, by decide, by decide, by decide, by decide⟩

/-- C3 as amended: a `makeGuess` call that returns a ValidationError (lyrics
too short, or lyrics unavailable) performs no lyrics scoring and leaves the
contributor set, the bonus flag, the persisted song-state map (reference for
reference), the lyrics flag and the guess-log reference triple unchanged,
and the error is emitted to the requesting socket only; but it does update
the player's guess-rate timestamp to `now`, the store has received the three
logging pushes (so any persisted entry sharing the live lyrics array sees
the appended lyrics guess), and any artist/title processing that precedes
the validation keeps its effects. -/
theorem C3_validation_error_effects :
    ∀ (st : GameState) (sid : Nat) (p : String) (ga gt gl : Option String)
      (now ts : Nat) (st' : GameState) (e : ValidationErr),
      alookup sid st.players = some p →
      makeGuess sid ga gt gl now ts st = (st', .validationError e) →
      st'.playersWhoGuessed = st.playersWhoGuessed ∧
      st'.bonusAwarded = st.bonusAwarded ∧
      st'.songStates = st.songStates ∧
      st'.guessedParts.lyrics = st.guessedParts.lyrics ∧
      st'.currentGuesses = st.currentGuesses ∧
      sentToRequesterOnly (.validationError e) = true ∧
      alookup p st'.lastGuessTimestamps = some now ∧
      st'.guessLogStore =
        storePush st.currentGuesses.lyrics gl p ts
          (storePush st.currentGuesses.title gt p ts
            (storePush st.currentGuesses.artist ga p ts st.guessLogStore)) ∧
      (∀ tid prev, alookup tid st.songStates = some prev →
        ∃ added, readLog st' prev.currentGuesses.lyrics =
            readLog st prev.currentGuesses.lyrics ++ added ∧
          (prev.currentGuesses.lyrics = st.currentGuesses.lyrics →
            ∀ s, gl = some s → s ≠ "" → trimStr s ≠ "" → added ≠ [])) := by
  intro st sid p ga gt gl now ts st' e hp h
  rcases hsong : st.currentSong with _ | song
  · exfalso
    unfold makeGuess at h
    rw [hp, hsong] at h
    simp at h
  · by_cases hth : now - (alookup p st.lastGuessTimestamps).getD 0 < 1000
    · exfalso
      rw [makeGuess_throttled hp hsong hth] at h
      simp at h
    · rw [makeGuess_eq_core hp hsong hth] at h
      obtain ⟨h1, h2, h3, h4, h5, h6, h7, h8⟩ := makeGuessCore_validationError_spec h
      have hstore : st'.guessLogStore =
          storePush st.currentGuesses.lyrics gl p ts
            (storePush st.currentGuesses.title gt p ts
              (storePush st.currentGuesses.artist ga p ts st.guessLogStore)) := h8
      refine ⟨h1, h2, h3, h4, h7, rfl, ?_, hstore, ?_⟩
      · rw [h6]
        exact alookup_aset_self p now st.lastGuessTimestamps
      · intro tid prev _
        obtain ⟨added, hadd, hne⟩ := readTriple_append st.currentGuesses.artist
          st.currentGuesses.title st.currentGuesses.lyrics ga gt gl p ts
          st.guessLogStore prev.currentGuesses.lyrics
        refine ⟨added, ?_, hne⟩
        show (alookup prev.currentGuesses.lyrics st'.guessLogStore).getD [] =
          (alookup prev.currentGuesses.lyrics st.guessLogStore).getD [] ++ added
        rw [hstore]
        exact hadd

/-- C3 witness for the amended claim, at the concrete too-short lyrics
guess of the counterexample scenario. -/
theorem C3_validation_error_effects_witness :
    ((makeGuess 1 none none (some "hi") 7000 7000 c3Partial).1).songStates =
      c3Partial.songStates ∧
    alookup "alice"
        ((makeGuess 1 none none (some "hi") 7000 7000 c3Partial).1).lastGuessTimestamps
      = some 7000 := by
  have h := C3_validation_error_effects c3Partial 1 "alice" none none (some "hi")
    7000 7000 ((makeGuess 1 none none (some "hi") 7000 7000 c3Partial).1)
    (.lyricsTooShort 2) (by decide) (by decide)
  exact ⟨h.2.2.1, h.2.2.2.2.2.2.1⟩

/-! ## C4: admin authentication -/

/-- Reading back a stored brute-force counter. -/
theorem getProt_setProt_self (k : PKey) (p : Protection) (st : GameState) :
    getProt k (setProt k p st) = p := by
  cases k <;> rfl

/-- A blocked key short-circuits `checkBruteForce` with the ceiling of the
remaining milliseconds over 1000. -/
theorem checkBruteForce_blocked {k : PKey} {now : Nat} {st : GameState}
    (h : now < (getProt k st).blockedUntil) :
    checkBruteForce k now st =
      (st, { blocked := true
             remainingTime := ((getProt k st).blockedUntil - now + 999) / 1000 }) := by
  unfold checkBruteForce
  rw [if_pos h]

/-- An unblocked key is reported unblocked, and the state either stays intact
or has only that key's failure counter zeroed (the use-it-or-lose-it reset). -/
theorem checkBruteForce_not_blocked {k : PKey} {now : Nat} {st : GameState}
    (h : ¬ now < (getProt k st).blockedUntil) :
    (checkBruteForce k now st).2 = { blocked := false, remainingTime := 0 } ∧
    ((checkBruteForce k now st).1 = st ∨
      (checkBruteForce k now st).1 =
        setProt k { getProt k st with failedAttempts := 0 } st) := by
  unfold checkBruteForce
  rw [if_neg h]
  by_cases h60 : now - (getProt k st).lastFailedAttempt > 60000
  · rw [if_pos h60]
    exact ⟨rfl, Or.inr rfl⟩
  · rw [if_neg h60]
    exact ⟨rfl, Or.inl rfl⟩

/-- Field frame of `setProt`: only the brute-force table changes. -/
theorem setProt_frame (k : PKey) (p : Protection) (st : GameState) :
    (setProt k p st).players = st.players ∧
    (setProt k p st).scores = st.scores ∧
    (setProt k p st).songStates = st.songStates ∧
    (setProt k p st).gameCode = st.gameCode ∧
    (setProt k p st).blockedIps = st.blockedIps ∧
    (setProt k p st).lastGuessTimestamps = st.lastGuessTimestamps := by
  cases k <;> exact ⟨rfl, rfl, rfl, rfl, rfl, rfl⟩

/-- Field frame of `resetFailedAttempts` (it is a `setProt`). -/
theorem resetFailedAttempts_frame (k : PKey) (st : GameState) :
    (resetFailedAttempts k st).players = st.players ∧
    (resetFailedAttempts k st).scores = st.scores ∧
    (resetFailedAttempts k st).songStates = st.songStates ∧
    (resetFailedAttempts k st).gameCode = st.gameCode ∧
    (resetFailedAttempts k st).blockedIps = st.blockedIps ∧
    (resetFailedAttempts k st).lastGuessTimestamps = st.lastGuessTimestamps :=
  setProt_frame k _ st

/-- The state component of `checkBruteForce` never touches anything but the
brute-force table. -/
theorem checkBruteForce_frame (k : PKey) (now : Nat) (st : GameState) :
    ((checkBruteForce k now st).1).players = st.players ∧
    ((checkBruteForce k now st).1).scores = st.scores ∧
    ((checkBruteForce k now st).1).songStates = st.songStates ∧
    ((checkBruteForce k now st).1).gameCode = st.gameCode ∧
    ((checkBruteForce k now st).1).blockedIps = st.blockedIps ∧
    ((checkBruteForce k now st).1).lastGuessTimestamps = st.lastGuessTimestamps := by
  unfold checkBruteForce
  dsimp only
  split
  · exact ⟨rfl, rfl, rfl, rfl, rfl, rfl⟩
  · split
    · exact setProt_frame k _ st
    · exact ⟨rfl, rfl, rfl, rfl, rfl, rfl⟩

/-- C4 counterexample: a state with a connected player (`alice`, 7 points)
keeps its roster and scores across a successful admin authentication — the
handler does not reset them to a clean game. -/
def c4State : GameState := { demoJoined with scores := [("alice", .num 7)] }

/-- C4 counterexample theorem: after successful authentication the roster and
scores are unchanged (not reset), refuting the clean-slate part of the claim. -/
theorem C4_counterexample :
    (∃ c, (verifyAdmin "pw" "pw" 2000 (1/2 : ℚ) c4State).2 = .success c) ∧
    ((verifyAdmin "pw" "pw" 2000 (1/2 : ℚ) c4State).1).scores =
      [("alice", .num 7)] ∧
    ((verifyAdmin "pw" "pw" 2000 (1/2 : ℚ) c4State).1).players = [(1, "alice")] := by
  refine ⟨⟨toString (generateGameCode (1/2 : ℚ)), rfl⟩, rfl, rfl⟩

/-- C4 as amended: successful admin authentication generates a fresh 6-digit
code in 100000–999999, sets a 30-minute expiry, binds the admin and resets
the admin-password failure counter — but it does not touch the roster, the
scores, the per-track round states or the session-code brute-force counter. -/
theorem C4_admin_auth :
    (∀ q : ℚ, 0 ≤ q → q < 1 →
      100000 ≤ generateGameCode q ∧ generateGameCode q ≤ 999999) ∧
    (∀ (st : GameState) (password : String) (now : Nat) (q : ℚ),
      ¬ now < (getProt .adminPassword st).blockedUntil →
      password ≠ "" →
      (verifyAdmin password password now q st).2 =
        .success (toString (generateGameCode q)) ∧
      ((verifyAdmin password password now q st).1).gameCode =
        some (toString (generateGameCode q)) ∧
      ((verifyAdmin password password now q st).1).gameCodeExpiry =
        some (now + 30 * 60 * 1000) ∧
      ((verifyAdmin password password now q st).1).adminConnected = true ∧
      getProt .adminPassword ((verifyAdmin password password now q st).1) =
        { failedAttempts := 0, lastFailedAttempt := 0, blockedUntil := 0 } ∧
      ((verifyAdmin password password now q st).1).players = st.players ∧
      ((verifyAdmin password password now q st).1).scores = st.scores ∧
      ((verifyAdmin password password now q st).1).songStates = st.songStates ∧
      ((verifyAdmin password password now q st).1).bruteForceProtection.gameCode =
        st.bruteForceProtection.gameCode) := by
  constructor
  · intro q h0 h1
    unfold generateGameCode
    constructor
    · apply Int.le_floor.mpr
      push_cast
      nlinarith
    · have : (100000 : ℚ) + q * 900000 < 1000000 := by nlinarith
      have h2 : ⌊(100000 : ℚ) + q * 900000⌋ < 1000000 := by
        apply Int.floor_lt.mpr
        push_cast
        exact this
      omega
  · intro st password now q hnb hpw
    obtain ⟨hc2, hc1⟩ := checkBruteForce_not_blocked hnb
    unfold verifyAdmin
    dsimp only
    rw [hc2]
    dsimp only
    rw [if_neg Bool.false_ne_true, if_neg hpw, if_pos rfl]
    have hgetreset : ∀ stx : GameState,
        getProt .adminPassword (resetFailedAttempts .adminPassword stx) =
          { failedAttempts := 0, lastFailedAttempt := 0, blockedUntil := 0 } :=
      fun stx => getProt_setProt_self .adminPassword _ stx
    obtain ⟨hb1, hb2, hb3, hb4, hb5, hb6⟩ := checkBruteForce_frame .adminPassword now st
    refine ⟨rfl, rfl, rfl, rfl, ?_, ?_, ?_, ?_, ?_⟩
    · exact hgetreset _
    · show (resetFailedAttempts .adminPassword (checkBruteForce .adminPassword now st).1).players = st.players
      rw [(resetFailedAttempts_frame .adminPassword _).1, hb1]
    · show (resetFailedAttempts .adminPassword (checkBruteForce .adminPassword now st).1).scores = st.scores
      rw [(resetFailedAttempts_frame .adminPassword _).2.1, hb2]
    · show (resetFailedAttempts .adminPassword (checkBruteForce .adminPassword now st).1).songStates = st.songStates
      rw [(resetFailedAttempts_frame .adminPassword _).2.2.1, hb3]
    · show (resetFailedAttempts .adminPassword (checkBruteForce .adminPassword now st).1).bruteForceProtection.gameCode = st.bruteForceProtection.gameCode
      rcases hc1 with hc1 | hc1 <;> rw [hc1] <;> rfl

/-- C4 witness: the amended claim at a concrete draw `q = 1/2` with the demo
session. -/
theorem C4_admin_auth_witness :
    (100000 ≤ generateGameCode (1/2 : ℚ) ∧ generateGameCode (1/2 : ℚ) ≤ 999999) ∧
    ((verifyAdmin "pw" "pw" 2000 (1/2 : ℚ) demoJoined).1).adminConnected = true ∧
    ((verifyAdmin "pw" "pw" 2000 (1/2 : ℚ) demoJoined).1).scores = demoJoined.scores := by
  have h1 := C4_admin_auth.1 (1/2 : ℚ) (by norm_num) (by norm_num)
  have h2 := C4_admin_auth.2 demoJoined "pw" 2000 (1/2 : ℚ) (by decide) (by decide)
  exact ⟨h1, h2.2.2.2.1, h2.2.2.2.2.2.2.1⟩

/-! ## C5: brute-force guard -/

/-- C5. (a) The fifth consecutive recorded failure locks the key until
`now + 60000`; (b) an attempt while locked returns the lockout error with the
remaining seconds and changes nothing (in particular it does not consume
another failure); (c) a correct password once the lock has expired succeeds
and resets the failure counter to 0; (d) checking the guard more than 60s
after the last failure resets the failure counter as a side effect of the
check. -/
theorem C5_brute_force_guard :
    (∀ (st : GameState) (k : PKey) (now : Nat),
      (getProt k st).failedAttempts = 4 →
      getProt k (recordFailedAttempt k now st) =
        { failedAttempts := 5, lastFailedAttempt := now
          blockedUntil := now + 60000 }) ∧
    (∀ (st : GameState) (password adminPassword : String) (now : Nat) (q : ℚ),
      now < (getProt .adminPassword st).blockedUntil →
      verifyAdmin password adminPassword now q st =
        (st, .lockedOut
          (((getProt .adminPassword st).blockedUntil - now + 999) / 1000))) ∧
    (∀ (st : GameState) (password : String) (now : Nat) (q : ℚ),
      ¬ now < (getProt .adminPassword st).blockedUntil →
      password ≠ "" →
      (∃ c, (verifyAdmin password password now q st).2 = .success c) ∧
      (getProt .adminPassword
        ((verifyAdmin password password now q st).1)).failedAttempts = 0) ∧
    (∀ (st : GameState) (k : PKey) (now : Nat),
      ¬ now < (getProt k st).blockedUntil →
      now - (getProt k st).lastFailedAttempt > 60000 →
      (checkBruteForce k now st).2.blocked = false ∧
      (getProt k ((checkBruteForce k now st).1)).failedAttempts = 0) := by
  refine ⟨?_, ?_, ?_, ?_⟩
  · intro st k now h
    unfold recordFailedAttempt
    dsimp only
    rw [if_pos (by rw [h])]
    rw [getProt_setProt_self]
    simp [h]
  · intro st password adminPassword now q h
    unfold verifyAdmin
    dsimp only
    rw [checkBruteForce_blocked h]
    dsimp only
    rw [if_pos rfl]
  · intro st password now q hnb hpw
    obtain ⟨hc2, _⟩ := checkBruteForce_not_blocked hnb
    unfold verifyAdmin
    dsimp only
    rw [hc2]
    dsimp only
    rw [if_neg Bool.false_ne_true, if_neg hpw, if_pos rfl]
    exact ⟨⟨toString (generateGameCode q), rfl⟩, rfl⟩
  · intro st k now h1 h2
    unfold checkBruteForce
    dsimp only
    rw [if_neg h1, if_pos h2]
    refine ⟨rfl, ?_⟩
    rw [getProt_setProt_self]

/-- A state whose admin-password key has four recorded failures, the last at
t=100ms. -/
def c5State : GameState :=
  { initialGameState with bruteForceProtection :=
    { adminPassword := { failedAttempts := 4, lastFailedAttempt := 100, blockedUntil := 0 }
      gameCode := { failedAttempts := 0, lastFailedAttempt := 0, blockedUntil := 0 } } }

/-- The same state after the fifth failure, recorded at t=200ms. -/
def c5Locked : GameState := recordFailedAttempt .adminPassword 200 c5State

/-- C5 witness: the fifth failure at t=200 locks until t=60200; at t=300 the
attempt is rejected with 60 seconds remaining and no state change; at
t=70000 the correct password succeeds and the counter reads 0; and merely
checking the key of `c5State` at t=70000 resets its counter. -/
theorem C5_brute_force_guard_witness :
    getProt .adminPassword c5Locked =
      { failedAttempts := 5, lastFailedAttempt := 200, blockedUntil := 60200 } ∧
    verifyAdmin "wrong" "pw" 300 (0 : ℚ) c5Locked = (c5Locked, .lockedOut 60) ∧
    (getProt .adminPassword
      ((verifyAdmin "pw" "pw" 70000 (0 : ℚ) c5Locked).1)).failedAttempts = 0 ∧
    (getProt .adminPassword
      ((checkBruteForce .adminPassword 70000 c5State).1)).failedAttempts = 0 := by
  refine ⟨?_, ?_, ?_, ?_⟩
  · exact C5_brute_force_guard.1 c5State .adminPassword 200 (by decide)
  · have h := C5_brute_force_guard.2.1 c5Locked "wrong" "pw" 300 (0 : ℚ) (by decide)
    rw [h]
    rfl
  · exact (C5_brute_force_guard.2.2.1 c5Locked "pw" 70000 (0 : ℚ) (by decide)
      (by decide)).2
  · exact (C5_brute_force_guard.2.2.2 c5State .adminPassword 70000 (by decide)
      (by decide)).2

/-! ## C6: players/scores alignment invariant -/

/-- The claimed invariant: every connected socket's player name has a score
entry. -/
def playersScoresAligned (st : GameState) : Prop :=
  ∀ sid p, alookup sid st.players = some p → (alookup p st.scores).isSome

/-- `ensureScore` always leaves an entry for the ensured name. -/
theorem ensureScore_self_isSome (p : String) (s : List (String × JsNum)) :
    (alookup p (ensureScore p s)).isSome := by
  unfold ensureScore
  rcases h : alookup p s with _ | ⟨n | _⟩
  · rw [alookup_aset_self]
    rfl
  · match n with
    | 0 =>
      rw [alookup_aset_self]
      rfl
    | m + 1 =>
      rw [h]
      rfl
  · rw [alookup_aset_self]
    rfl

/-- `ensureScore` never deletes an entry. -/
theorem ensureScore_mono {q : String} (p : String) {s : List (String × JsNum)}
    (h : (alookup q s).isSome) : (alookup q (ensureScore p s)).isSome := by
  unfold ensureScore
  rcases hp : alookup p s with _ | ⟨n | _⟩
  · exact alookup_aset_isSome _ h
  · match n with
    | 0 => exact alookup_aset_isSome _ h
    | m + 1 => exact h
  · exact alookup_aset_isSome _ h

/-- Deletion can only shrink the association list. -/
theorem alookup_adel_some {κ α : Type} [DecidableEq κ] {k k' : κ} {v : α}
    {l : List (κ × α)} (h : alookup k' (adel k l) = some v) :
    alookup k' l = some v := by
  by_cases hk : k' = k
  · subst hk
    rw [alookup_adel_self] at h
    cases h
  · rwa [alookup_adel_ne l hk] at h

/-- The handler body keeps the socket roster and never deletes score
entries. -/
theorem makeGuessCore_players_scores (p : String) (song : Song)
    (ga gt gl : Option String) (ts : Nat) (st : GameState) :
    ((makeGuessCore p song ga gt gl ts st).1).players = st.players ∧
    (∀ q, (alookup q st.scores).isSome →
      (alookup q ((makeGuessCore p song ga gt gl ts st).1).scores).isSome) := by
  obtain ⟨hf1, hf2, hf3, hf4, hf5, hf6, hf7, hf8⟩ := logGuesses_frame p ga gt gl ts st
  unfold makeGuessCore
  dsimp only
  rcases hA : checkArtistGuess p song ga (logGuesses p ga gt gl ts st) with ⟨st3, a⟩
  obtain ⟨hA1, hA2, hA3, hA4, hA5, hA6, hA7, hA8, hA9, hA10⟩ := checkArtistGuess_shape hA
  dsimp only
  rcases hT : checkTitleGuess p song gt st3 with ⟨st4, t⟩
  obtain ⟨hT1, hT2, hT3, hT4, hT5, hT6, hT7, hT8, hT9, hT10⟩ := checkTitleGuess_shape hT
  dsimp only
  have hmono4 : ∀ q, (alookup q st.scores).isSome →
      (alookup q st4.scores).isSome := by
    intro q hq
    have h2 : (alookup q (logGuesses p ga gt gl ts st).scores).isSome := by
      rw [hf1]
      exact hq
    have h3 : (alookup q st3.scores).isSome := by
      rw [hA1]
      split
      · exact bumpScore_isSome h2
      · exact h2
    rw [hT1]
    split
    · exact bumpScore_isSome h3
    · exact h3
  have hp4 : st4.players = st.players := by
    rw [hT7, hA7, hf2]
  rcases hL : checkLyricsGuess p song gl st4 with ⟨e, st5⟩ | ⟨st5, l⟩
  · have hst5 : st5 = st4 := checkLyricsGuess_err_state _ _ _ _ _ _ hL
    subst hst5
    dsimp only
    exact ⟨hp4, hmono4⟩
  · obtain ⟨hL1, hL2, hL3, hL4, hL5, hL6, hL7, hL8, hL9, hL10⟩ :=
      checkLyricsGuess_ok_shape hL
    dsimp only
    obtain ⟨hs1, hs2, hs3, hs4, hs5, hs6, hs7, hs8⟩ :=
      saveSongState_frame song.id (computeAllGuessed st5.guessedParts) st5
    have hmono5 : ∀ q, (alookup q st.scores).isSome →
        (alookup q st5.scores).isSome := by
      intro q hq
      rw [hL1]
      split
      · exact bumpScore_isSome (hmono4 q hq)
      · exact hmono4 q hq
    have hp6 : (saveSongState song.id (computeAllGuessed st5.guessedParts)
        st5).players = st.players := by
      rw [hs2, hL7, hp4]
    have hmono6 : ∀ q, (alookup q st.scores).isSome →
        (alookup q (saveSongState song.id (computeAllGuessed st5.guessedParts)
          st5).scores).isSome := by
      intro q hq
      rw [hs1]
      exact hmono5 q hq
    by_cases hlen : ((if a then [Category.artist] else []) ++
        (if t then [Category.title] else []) ++
        (if l then [Category.lyrics] else [])).length > 0
    · rw [if_pos hlen]
      unfold finalizeCorrect
      dsimp only
      split
      · obtain ⟨hu1, hu2, hu3, hu4, hu5, hu6, hu7⟩ :=
          updateStatusAfterCorrect_frame song.id (computeAllGuessed st5.guessedParts)
            { saveSongState song.id (computeAllGuessed st5.guessedParts) st5 with
                playersWhoGuessed := jsSetAdd p (saveSongState song.id
                  (computeAllGuessed st5.guessedParts) st5).playersWhoGuessed
                scores := bumpScore p (saveSongState song.id
                  (computeAllGuessed st5.guessedParts) st5).scores
                bonusAwarded := true }
        constructor
        · rw [hu2]
          exact hp6
        · intro q hq
          rw [hu1]
          exact bumpScore_isSome (hmono6 q hq)
      · obtain ⟨hu1, hu2, hu3, hu4, hu5, hu6, hu7⟩ :=
          updateStatusAfterCorrect_frame song.id (computeAllGuessed st5.guessedParts)
            { saveSongState song.id (computeAllGuessed st5.guessedParts) st5 with
                playersWhoGuessed := jsSetAdd p (saveSongState song.id
                  (computeAllGuessed st5.guessedParts) st5).playersWhoGuessed }
        constructor
        · rw [hu2]
          exact hp6
        · intro q hq
          rw [hu1]
          exact hmono6 q hq
    · rw [if_neg hlen]
      exact ⟨hp6, hmono6⟩

/-- Field frame of `extendGameCode`: only the expiry may change. -/
theorem extendGameCode_frame (now : Nat) (st : GameState) :
    (extendGameCode now st).players = st.players ∧
    (extendGameCode now st).scores = st.scores ∧
    (extendGameCode now st).songStates = st.songStates ∧
    (extendGameCode now st).lastGuessTimestamps = st.lastGuessTimestamps ∧
    (extendGameCode now st).blockedIps = st.blockedIps ∧
    (extendGameCode now st).guessedParts = st.guessedParts := by
  unfold extendGameCode
  split <;> exact ⟨rfl, rfl, rfl, rfl, rfl, rfl⟩

/-- `startRound` never touches the roster or the scores. -/
theorem startRound_players_scores (song : Song) (now : Nat) (st : GameState) :
    (startRound song now st).players = st.players ∧
    (startRound song now st).scores = st.scores := by
  obtain ⟨he1, he2, he3, he4, he5, he6⟩ :=
    extendGameCode_frame now { st with isPlaying := true }
  unfold startRound
  dsimp only
  rcases hm : alookup song.id
      (extendGameCode now { st with isPlaying := true }).songStates with _ | prev <;>
    dsimp only <;> split_ifs <;> exact ⟨he1, he2⟩

/-- `verifyAdmin` never touches the roster or the scores. -/
theorem verifyAdmin_players_scores (password adminPassword : String) (now : Nat)
    (q : ℚ) (st : GameState) :
    ((verifyAdmin password adminPassword now q st).1).players = st.players ∧
    ((verifyAdmin password adminPassword now q st).1).scores = st.scores := by
  obtain ⟨hb1, hb2, hb3, hb4, hb5, hb6⟩ := checkBruteForce_frame .adminPassword now st
  unfold verifyAdmin
  dsimp only
  split
  · exact ⟨hb1, hb2⟩
  · split
    · exact ⟨hb1, hb2⟩
    · split
      · constructor
        · show (resetFailedAttempts .adminPassword
              (checkBruteForce .adminPassword now st).1).players = st.players
          rw [(resetFailedAttempts_frame .adminPassword _).1, hb1]
        · show (resetFailedAttempts .adminPassword
              (checkBruteForce .adminPassword now st).1).scores = st.scores
          rw [(resetFailedAttempts_frame .adminPassword _).2.1, hb2]
      · constructor
        · show (recordFailedAttempt .adminPassword now
              (checkBruteForce .adminPassword now st).1).players = st.players
          unfold recordFailedAttempt
          dsimp only
          split <;> rw [(setProt_frame .adminPassword _ _).1, hb1]
        · show (recordFailedAttempt .adminPassword now
              (checkBruteForce .adminPassword now st).1).scores = st.scores
          unfold recordFailedAttempt
          dsimp only
          split <;> rw [(setProt_frame .adminPassword _ _).2.1, hb2]

/-- Case analysis of `playerJoin`: rejections leave the state alone (or run
the full expiry reset); every `.joined` outcome goes through `bindPlayer`,
either directly or after the reconnection-takeover detach. -/
theorem playerJoin_spec (sid : Nat) (pn code : String) (now : Nat)
    (st : GameState) :
    ((playerJoin sid pn code now st).2 ≠ .joined ∧
      ((playerJoin sid pn code now st).1 = st ∨
        (playerJoin sid pn code now st).1 = resetGameCode st)) ∨
    ((playerJoin sid pn code now st).2 = .joined ∧
      ((playerJoin sid pn code now st).1 = bindPlayer sid pn st ∨
        ∃ esid, (playerJoin sid pn code now st).1 =
          bindPlayer sid pn
            { st with
                players := adel esid st.players
                lastGuessTimestamps := adel pn st.lastGuessTimestamps })) := by
  unfold playerJoin
  by_cases h1 : (!jsTruthyStr st.gameCode) = true
  · rw [if_pos h1]
    exact Or.inl ⟨by simp, Or.inl rfl⟩
  · rw [if_neg h1]
    by_cases h2 : st.gameCode ≠ some code
    · rw [if_pos h2]
      exact Or.inl ⟨by simp, Or.inl rfl⟩
    · rw [if_neg h2]
      by_cases h3 : jsExpired st.gameCodeExpiry now = true
      · rw [if_pos h3]
        exact Or.inl ⟨by simp, Or.inr rfl⟩
      · rw [if_neg h3]
        rcases hf : findSocketByName pn st.players with _ | esid
        · exact Or.inr ⟨rfl, Or.inl rfl⟩
        · dsimp only
          by_cases h4 : esid ≠ sid
          · rw [if_pos h4]
            by_cases h5 : (alookup pn st.scores).isSome = true
            · rw [if_pos h5]
              exact Or.inr ⟨rfl, Or.inr ⟨esid, rfl⟩⟩
            · rw [if_neg h5]
              exact Or.inl ⟨by simp, Or.inl rfl⟩
          · rw [if_neg h4]
            exact Or.inr ⟨rfl, Or.inl rfl⟩

/-- `bindPlayer` establishes the alignment for the bound name and keeps it
for everyone else. -/
theorem bindPlayer_aligned {st : GameState} (sid : Nat) (pn : String)
    (h : playersScoresAligned st) :
    playersScoresAligned (bindPlayer sid pn st) := by
  intro sid' p' hl
  unfold bindPlayer at hl ⊢
  dsimp only at hl ⊢
  by_cases hsid : sid' = sid
  · subst hsid
    rw [alookup_aset_self] at hl
    cases hl
    exact ensureScore_self_isSome pn st.scores
  · rw [alookup_aset_ne _ _ hsid] at hl
    exact ensureScore_mono pn (h sid' p' hl)

/-- C6 as amended: every successful join leaves a score entry for the joined
name; the players-have-scores invariant is established by `playerJoin` and
preserved by `playerJoin`, `disconnect`, `makeGuess`, `startRound`,
`verifyAdmin` and the full session reset — but it is not preserved by
`reset-scores`, which clears the scores while keeping the roster (see the
counterexample). -/
theorem C6_players_scores_invariant :
    (∀ (st : GameState) (sid : Nat) (pn code : String) (now : Nat)
        (st' : GameState),
      playerJoin sid pn code now st = (st', .joined) →
      (alookup pn st'.scores).isSome) ∧
    (∀ (st : GameState) (sid : Nat) (pn code : String) (now : Nat),
      playersScoresAligned st →
      playersScoresAligned (playerJoin sid pn code now st).1) ∧
    (∀ (st : GameState) (sid : Nat),
      playersScoresAligned st → playersScoresAligned (disconnectSocket sid st)) ∧
    (∀ (st : GameState) (sid : Nat) (ga gt gl : Option String) (now ts : Nat),
      playersScoresAligned st →
      playersScoresAligned (makeGuess sid ga gt gl now ts st).1) ∧
    (∀ (song : Song) (now : Nat) (st : GameState),
      playersScoresAligned st → playersScoresAligned (startRound song now st)) ∧
    (∀ (password adminPassword : String) (now : Nat) (q : ℚ) (st : GameState),
      playersScoresAligned st →
      playersScoresAligned (verifyAdmin password adminPassword now q st).1) ∧
    (∀ st : GameState, playersScoresAligned (resetGameCode st)) := by
  have hreset : ∀ st : GameState, playersScoresAligned (resetGameCode st) := by
    intro st sid p h
    have : (resetGameCode st).players = [] := rfl
    rw [this] at h
    simp [alookup] at h
  refine ⟨?_, ?_, ?_, ?_, ?_, ?_, hreset⟩
  · intro st sid pn code now st' h
    rcases playerJoin_spec sid pn code now st with ⟨hne, _⟩ | ⟨heq, hcase⟩
    · exfalso
      apply hne
      rw [h]
    · have hfst : (playerJoin sid pn code now st).1 = st' := by rw [h]
      rcases hcase with hc | ⟨esid, hc⟩
      · rw [hfst] at hc
        rw [hc]
        exact ensureScore_self_isSome pn st.scores
      · rw [hfst] at hc
        rw [hc]
        exact ensureScore_self_isSome pn _
  · intro st sid pn code now h
    rcases playerJoin_spec sid pn code now st with ⟨_, hc | hc⟩ | ⟨_, hc | ⟨esid, hc⟩⟩
    · rw [hc]
      exact h
    · rw [hc]
      exact hreset st
    · rw [hc]
      exact bindPlayer_aligned sid pn h
    · rw [hc]
      apply bindPlayer_aligned sid pn
      intro sid' p' hl
      exact h sid' p' (alookup_adel_some hl)
  · intro st sid h
    unfold disconnectSocket
    rcases hp : alookup sid st.players with _ | pn
    · dsimp only
      intro sid' p' hl
      exact h sid' p' hl
    · dsimp only
      split
      · intro sid' p' hl
        exact h sid' p' (alookup_adel_some hl)
      · intro sid' p' hl
        exact h sid' p' (alookup_adel_some hl)
  · intro st sid ga gt gl now ts h
    unfold makeGuess
    rcases hp : alookup sid st.players with _ | p
    · dsimp only
      exact h
    · rcases hsong : st.currentSong with _ | song
      · dsimp only
        exact h
      · dsimp only
        by_cases hth : now - (alookup p st.lastGuessTimestamps).getD 0 < 1000
        · rw [if_pos hth]
          exact h
        · rw [if_neg hth]
          obtain ⟨hcp, hcm⟩ := makeGuessCore_players_scores p song ga gt gl ts
            { st with
                currentSong := some song
                lastGuessTimestamps := aset p now st.lastGuessTimestamps }
          intro sid' p' hl
          rw [hcp] at hl
          exact hcm p' (h sid' p' hl)
  · intro song now st h
    obtain ⟨hp, hs⟩ := startRound_players_scores song now st
    intro sid' p' hl
    rw [hp] at hl
    rw [hs]
    exact h sid' p' hl
  · intro password adminPassword now q st h
    obtain ⟨hp, hs⟩ := verifyAdmin_players_scores password adminPassword now q st
    intro sid' p' hl
    rw [hp] at hl
    rw [hs]
    exact h sid' p' hl

/-- C6 counterexample: after `alice` joins, `POST /api/reset-scores` empties
the scores map while `alice` is still in the roster — a reachable state with
a connected player whose name is absent from `scores`, refuting "preserved by
every operation". -/
theorem C6_counterexample :
    alookup 1 ((resetScores demoJoined).players) = some "alice" ∧
    alookup "alice" ((resetScores demoJoined).scores) = none := by
  exact ⟨by decide, by decide⟩

/-- C6 witness: the joined demo session has an entry for `alice`, and the
invariant holds for it. -/
theorem C6_players_scores_invariant_witness :
    (alookup "alice" demoJoined.scores).isSome = true ∧
    playersScoresAligned demoJoined := by
  constructor
  · exact C6_players_scores_invariant.1 demoBase 1 "alice" "123456" 1000
      demoJoined (by decide)
  · exact C6_players_scores_invariant.2.1 demoBase 1 "alice" "123456" 1000
      (by intro sid p h; simp [demoBase, initialGameState, alookup] at h)

/-! ## C7: replay resume -/

/-- A round on the lyrics-unavailable track `t2`, completed by `alice` at
t=3000 (artist and title guessed; the lyrics category is unavailable, so the
round counts as complete): the handler persists a complete entry for `t2`. -/
def c7bCompleted : GameState :=
  (makeGuess 1 (some "X") (some "Song") none 3000 3000
    (startRound demoSongNoLyrics 1000 demoJoined)).1

/-- The same track `t2` as later resolved with lyrics text present (for
example after a manual-lyrics upload or a successful later provider fetch
filled the lyrics cache). -/
def demoSongLyricsLater : Song :=
  { id := "t2", name := "Song", artists := ["X"]
    lyrics := some "these words were found later"
    lyricsAvailable := true }

/-- C7 counterexample: the persisted state of `t2` is complete, yet
replaying `t2` once lyrics have become available does NOT report all
categories guessed — the stored `unavailable` lyrics flag is coerced to
`not guessed`, reopening the lyrics category, and a lyrics guess in the
replayed round is accepted and scored. -/
theorem C7_counterexample :
    ((alookup "t2" c7bCompleted.songStates).map fun prev => prev.isComplete)
      = some true ∧
    (startRound demoSongLyricsLater 4000 c7bCompleted).guessedParts.lyrics
      = some false ∧
    computeAllGuessed
      (startRound demoSongLyricsLater 4000 c7bCompleted).guessedParts = false ∧
    (makeGuess 1 none none (some "these words were found later") 9000 9000
      (startRound demoSongLyricsLater 4000 c7bCompleted)).2
      = .correct [Category.lyrics] true := by
  refine ⟨by decide, by decide, by decide, by decide⟩

/-- When the lyrics category is not open (`guessed` or `unavailable`), the
lyrics branch never scores: it either raises the unavailable error or passes
the state through. -/
theorem checkLyricsGuess_no_score {p : String} {song : Song} {gl : Option String}
    {st : GameState} (h : st.guessedParts.lyrics ≠ some false) :
    (∃ e, checkLyricsGuess p song gl st = .err e st) ∨
    checkLyricsGuess p song gl st = .ok st false := by
  rcases checkLyricsGuess_spec p song gl st with ⟨e, hs⟩ | hs | ⟨h0, _⟩
  · exact Or.inl ⟨e, hs⟩
  · exact Or.inr hs
  · exact absurd h0 h

/-- In a round whose categories are all already guessed (or unavailable), a
further guess can never change the scores. -/
theorem makeGuessCore_allGuessed_scores {p : String} {song : Song}
    {ga gt gl : Option String} {ts : Nat} {st : GameState}
    (hall : computeAllGuessed st.guessedParts = true) :
    ((makeGuessCore p song ga gt gl ts st).1).scores = st.scores := by
  obtain ⟨ha, htl, hly⟩ := (computeAllGuessed_iff st.guessedParts).mp hall
  obtain ⟨hf1, hf2, hf3, hf4, hf5, hf6, hf7, hf8⟩ := logGuesses_frame p ga gt gl ts st
  unfold makeGuessCore
  dsimp only
  rw [checkArtistGuess_of_guessed p song ga _ (by rw [hf3]; exact ha)]
  dsimp only
  rw [checkTitleGuess_of_guessed p song gt _ (by rw [hf3]; exact htl)]
  dsimp only
  have hne : (logGuesses p ga gt gl ts st).guessedParts.lyrics ≠ some false := by
    rw [hf3]
    rcases hly with h | h <;> rw [h] <;> simp
  rcases checkLyricsGuess_no_score hne with ⟨e, hL⟩ | hL <;> rw [hL] <;> dsimp only
  · exact hf1
  · rw [if_neg (by simp)]
    obtain ⟨hs1, _⟩ := saveSongState_frame song.id
      (computeAllGuessed (logGuesses p ga gt gl ts st).guessedParts)
      (logGuesses p ga gt gl ts st)
    rw [hs1, hf1]

/-- C7 as amended. (a) Starting a track whose id has persisted round state
restores the guessed flags, `bonusAwarded`, the contributor set and the
guess log from that state instead of resetting (the lyrics flag additionally
forced to `unavailable` when the replay has no lyrics text); (b) for a track
whose persisted state is complete, replaying it reports all categories
already guessed PROVIDED lyrics availability did not change between the
plays (lyrics available on replay only if they were not unavailable when the
state was saved); (c) in an all-guessed round no `makeGuess` call can change
any score. -/
theorem C7_replay_resume :
    (∀ (st : GameState) (song : Song) (now : Nat) (prev : SongState),
      alookup song.id st.songStates = some prev →
      (startRound song now st).currentSong = some song ∧
      (startRound song now st).guessedParts.artist = prev.guessedParts.artist ∧
      (startRound song now st).guessedParts.title = prev.guessedParts.title ∧
      (startRound song now st).guessedParts.lyrics =
        (if !song.lyricsAvailable then none
         else some (decide (prev.guessedParts.lyrics = some true))) ∧
      (startRound song now st).bonusAwarded = prev.bonusAwarded ∧
      (startRound song now st).playersWhoGuessed =
        jsSetFromList prev.playersWhoGuessed ∧
      (startRound song now st).currentGuesses = prev.currentGuesses) ∧
    (∀ (st : GameState) (song : Song) (now : Nat) (prev : SongState),
      alookup song.id st.songStates = some prev →
      computeAllGuessed prev.guessedParts = true →
      (song.lyricsAvailable = true → prev.guessedParts.lyrics ≠ none) →
      computeAllGuessed (startRound song now st).guessedParts = true) ∧
    (∀ (st : GameState) (sid : Nat) (ga gt gl : Option String) (now ts : Nat),
      computeAllGuessed st.guessedParts = true →
      ((makeGuess sid ga gt gl now ts st).1).scores = st.scores) := by
  have hmain : ∀ (st : GameState) (song : Song) (now : Nat) (prev : SongState),
      alookup song.id st.songStates = some prev →
      (startRound song now st).currentSong = some song ∧
      (startRound song now st).guessedParts.artist = prev.guessedParts.artist ∧
      (startRound song now st).guessedParts.title = prev.guessedParts.title ∧
      (startRound song now st).guessedParts.lyrics =
        (if !song.lyricsAvailable then none
         else some (decide (prev.guessedParts.lyrics = some true))) ∧
      (startRound song now st).bonusAwarded = prev.bonusAwarded ∧
      (startRound song now st).playersWhoGuessed =
        jsSetFromList prev.playersWhoGuessed ∧
      (startRound song now st).currentGuesses = prev.currentGuesses := by
    intro st song now prev hprev
    have hlook : alookup song.id
        (extendGameCode now { st with isPlaying := true }).songStates = some prev := by
      rw [(extendGameCode_frame now { st with isPlaying := true }).2.2.1]
      exact hprev
    unfold startRound
    dsimp only
    rw [hlook]
    dsimp only
    split_ifs <;> exact ⟨rfl, rfl, rfl, rfl, rfl, rfl, rfl⟩
  refine ⟨hmain, ?_, ?_⟩
  · intro st song now prev hprev hc havail
    obtain ⟨h1, h2, h3, h4, h5, h6, h7⟩ := hmain st song now prev hprev
    obtain ⟨ha, ht, hl⟩ := (computeAllGuessed_iff prev.guessedParts).mp hc
    rw [computeAllGuessed_iff]
    refine ⟨by rw [h2, ha], by rw [h3, ht], ?_⟩
    rw [h4]
    by_cases hav : song.lyricsAvailable = true
    · rw [if_neg (by rw [hav]; simp)]
      rcases hl with hl | hl
      · exact absurd hl (havail hav)
      · right
        rw [hl]
        simp
    · left
      rw [if_pos (by simp at hav; rw [hav]; rfl)]
  · intro st sid ga gt gl now ts hall
    unfold makeGuess
    rcases hp : alookup sid st.players with _ | p
    · dsimp only
    · rcases hsong : st.currentSong with _ | song
      · dsimp only
      · dsimp only
        by_cases hth : now - (alookup p st.lastGuessTimestamps).getD 0 < 1000
        · rw [if_pos hth]
        · rw [if_neg hth]
          exact makeGuessCore_allGuessed_scores hall

/-- The demo round after `alice`'s completing sweep; its per-track state is
persisted under the track id. -/
def c7Completed : GameState :=
  (makeGuess 1 (some "Coldplay") (some "Yellow")
    (some "look how they shine for you") 5000 5000 demoRound).1

/-- The persisted state of the demo track inside `c7Completed`. -/
def c7Prev : SongState :=
  (alookup demoSong.id c7Completed.songStates).getD
    { isComplete := false
      guessedParts := { artist := false, title := false, lyrics := some false }
      bonusAwarded := false
      playersWhoGuessed := []
      currentGuesses := { artist := 0, title := 0, lyrics := 0 } }

/-- C7 witness: replaying the completed demo track restores its state, all
categories report guessed, and a further guess cannot change the scores. -/
theorem C7_replay_resume_witness :
    (startRound demoSong 6000 c7Completed).bonusAwarded = c7Prev.bonusAwarded ∧
    (startRound demoSong 6000 c7Completed).currentGuesses = c7Prev.currentGuesses ∧
    computeAllGuessed (startRound demoSong 6000 c7Completed).guessedParts = true ∧
    ((makeGuess 1 (some "x") none none 9999 9999
      (startRound demoSong 6000 c7Completed)).1).scores =
      (startRound demoSong 6000 c7Completed).scores := by
  have h1 := C7_replay_resume.1 c7Completed demoSong 6000 c7Prev (by decide)
  have h2 := C7_replay_resume.2.1 c7Completed demoSong 6000 c7Prev (by decide)
    (by decide) (by decide)
  have h3 := C7_replay_resume.2.2 (startRound demoSong 6000 c7Completed) 1
    (some "x") none none 9999 9999 h2
  exact ⟨h1.2.2.2.2.1, h1.2.2.2.2.2.2, h2, h3⟩

/-! ## C8: normalizeText keeps spaces -/

/-- Characters of the whitespace-collapsed list are either the inserted
single space or non-whitespace characters of the input. -/
theorem mem_collapseWs {c : Char} :
    ∀ (l : List Char) (b : Bool), c ∈ collapseWs l b →
      c = ' ' ∨ (c ∈ l ∧ c.isWhitespace = false)
  | [], b, h => by simp [collapseWs] at h
  | d :: rest, b, h => by
    unfold collapseWs at h
    by_cases hws : d.isWhitespace
    · rw [if_pos hws] at h
      rcases List.mem_append.mp h with h' | h'
      · left
        rcases b with _ | _
        · simpa using h'
        · simp at h'
      · rcases mem_collapseWs rest true h' with h'' | ⟨h2, h3⟩
        · exact Or.inl h''
        · exact Or.inr ⟨List.mem_cons_of_mem d h2, h3⟩
    · rw [if_neg hws] at h
      rcases List.mem_cons.mp h with h' | h'
      · subst h'
        exact Or.inr ⟨List.mem_cons_self c rest, by simpa using hws⟩
      · rcases mem_collapseWs rest false h' with h'' | ⟨h2, h3⟩
        · exact Or.inl h''
        · exact Or.inr ⟨List.mem_cons_of_mem d h2, h3⟩

/-- Trimming only removes characters. -/
theorem mem_trimWs {c : Char} {l : List Char} (h : c ∈ trimWs l) : c ∈ l := by
  unfold trimWs at h
  rw [List.mem_reverse] at h
  have h1 := (List.dropWhile_suffix Char.isWhitespace).sublist.subset h
  rw [List.mem_reverse] at h1
  exact (List.dropWhile_suffix Char.isWhitespace).sublist.subset h1

/-- C8 counterexample: the lyric normalization does NOT remove spaces — the
normalized form of `"a b"` is `"a b"`, which contains the non-alphanumeric
character `' '`. -/
theorem C8_counterexample :
    normalizeText "a b" = "a b" ∧
    ' ' ∈ (normalizeText "a b").data ∧ (' ').isAlphanum = false := by
  exact ⟨by decide, by decide, by decide⟩

/-- C8 as amended: `normalizeText` lowercases and removes every character
that is neither a word character (alphanumeric or underscore) nor
whitespace, collapses whitespace runs to single spaces, and trims — so every
character of the result is a word character or a space (spaces are kept);
lyric matching then tests that the normalized guess occurs as a substring of
the normalized lyrics. -/
theorem C8_normalize_text :
    (∀ (s : String), ∀ c ∈ (normalizeText s).data,
      (isWordChar c || c = ' ') = true) ∧
    (∀ (p : String) (song : Song) (gl : Option String) (st st' : GameState),
      checkLyricsGuess p song gl st = .ok st' true →
      includesL (normalizeText (song.lyrics.getD "")).data
        (normalizeText (gl.getD "")).data = true) := by
  constructor
  · intro s c hc
    have hc' : c ∈ trimWs (collapseWs ((jsLower s.data).filter
        (fun c => isWordChar c || c.isWhitespace)) false) := hc
    have h1 := mem_trimWs hc'
    rcases mem_collapseWs _ false h1 with h | ⟨h2, h3⟩
    · simp [h]
    · have h4 := List.of_mem_filter h2
      simp only [h3, Bool.or_false] at h4
      simp [h4]
  · intro p song gl st st' h
    unfold checkLyricsGuess at h
    by_cases h1 : jsTruthyField gl = true
    · rcases hgp : st.guessedParts.lyrics with _ | b
      · rw [hgp] at h
        simp [h1] at h
      · rcases b with _ | _
        · rw [hgp] at h
          by_cases h3 : countLetters (gl.getD "") < 12
          · simp [h1, h3] at h
          · by_cases h4 : includesL (normalizeText (song.lyrics.getD "")).data
                (normalizeText (gl.getD "")).data = true
            · exact h4
            · simp [h1, h3, h4] at h
        · rw [hgp] at h
          simp [h1] at h
    · simp [h1] at h

/-- Extract the state carried by a lyrics-branch outcome. -/
def lyricsCheckState : LyricsCheck → GameState
  | .ok s _ => s
  | .err _ s => s

/-- C8 witness: the character classification at a concrete string, and the
substring fact extracted from a concrete successful lyrics check in the demo
round. -/
theorem C8_normalize_text_witness :
    (isWordChar 'h' || 'h' = ' ') = true ∧
    includesL (normalizeText (demoSong.lyrics.getD "")).data
      (normalizeText ((some "look how they shine for you").getD "")).data = true := by
  constructor
  · exact C8_normalize_text.1 "hello world" 'h' (by decide)
  · exact C8_normalize_text.2 "alice" demoSong (some "look how they shine for you")
      demoRound
      (lyricsCheckState (checkLyricsGuess "alice" demoSong
        (some "look how they shine for you") demoRound))
      (by decide)

/-! ## C9: full session reset frame -/

/-- C9. The full session reset clears the code, expiry, admin binding,
roster, scores, per-track round states, brute-force counters and per-player
guess-rate timestamps, while leaving the blocked-address table unchanged —
address blocks survive a game reset. -/
theorem C9_reset_preserves_blocked :
    ∀ st : GameState,
      (resetGameCode st).gameCode = none ∧
      (resetGameCode st).gameCodeExpiry = none ∧
      (resetGameCode st).adminConnected = false ∧
      (resetGameCode st).players = [] ∧
      (resetGameCode st).scores = [] ∧
      (resetGameCode st).songStates = [] ∧
      (resetGameCode st).bruteForceProtection =
        { adminPassword := { failedAttempts := 0, lastFailedAttempt := 0, blockedUntil := 0 }
          gameCode := { failedAttempts := 0, lastFailedAttempt := 0, blockedUntil := 0 } } ∧
      (resetGameCode st).lastGuessTimestamps = [] ∧
      (resetGameCode st).blockedIps = st.blockedIps := by
  intro st
  exact ⟨rfl, rfl, rfl, rfl, rfl, rfl, rfl, rfl, rfl⟩

/-! ## C10: live names are taken over, never rejected -/

/-- C10. (a) Every successful join leaves a defined score entry for the
joined name, so (b) a join attempt under the name of a currently-connected
player whose score entry is defined is never rejected as name-taken: it
succeeds, detaches the old socket and binds the name to the new one. -/
theorem C10_live_name_takeover :
    (∀ (st : GameState) (sid : Nat) (pn code : String) (now : Nat)
        (st' : GameState),
      playerJoin sid pn code now st = (st', .joined) →
      (alookup pn st'.scores).isSome) ∧
    (∀ (st : GameState) (sid nsid : Nat) (pn code : String) (now : Nat),
      st.gameCode = some code → code ≠ "" →
      jsExpired st.gameCodeExpiry now = false →
      findSocketByName pn st.players = some sid →
      sid ≠ nsid →
      (alookup pn st.scores).isSome →
      (playerJoin nsid pn code now st).2 = .joined ∧
      alookup sid ((playerJoin nsid pn code now st).1).players = none ∧
      alookup nsid ((playerJoin nsid pn code now st).1).players = some pn) := by
  constructor
  · intro st sid pn code now st' h
    rcases playerJoin_spec sid pn code now st with ⟨hne, _⟩ | ⟨heq, hcase⟩
    · exfalso
      apply hne
      rw [h]
    · have hfst : (playerJoin sid pn code now st).1 = st' := by rw [h]
      rcases hcase with hc | ⟨esid, hc⟩
      · rw [hfst] at hc
        rw [hc]
        exact ensureScore_self_isSome pn st.scores
      · rw [hfst] at hc
        rw [hc]
        exact ensureScore_self_isSome pn _
  · intro st sid nsid pn code now hcode hne hexp hfind hsid hscore
    unfold playerJoin
    rw [hcode]
    rw [if_neg (by simp [jsTruthyStr, hne])]
    rw [if_neg (by simp)]
    rw [if_neg (by simp [hexp])]
    rw [hfind]
    dsimp only
    rw [if_pos hsid]
    rw [if_pos hscore]
    unfold bindPlayer
    dsimp only
    refine ⟨rfl, ?_, ?_⟩
    · rw [alookup_aset_ne _ _ hsid]
      exact alookup_adel_self sid st.players
    · exact alookup_aset_self nsid pn _

/-- C10 witness: a second socket joining as the live `alice` takes the name
over instead of being rejected, and the joined state keeps her score entry. -/
theorem C10_live_name_takeover_witness :
    (alookup "alice" demoJoined.scores).isSome = true ∧
    (playerJoin 2 "alice" "123456" 2000 demoJoined).2 = .joined ∧
    alookup 1 ((playerJoin 2 "alice" "123456" 2000 demoJoined).1).players = none ∧
    alookup 2 ((playerJoin 2 "alice" "123456" 2000 demoJoined).1).players =
      some "alice" := by
  have ha := C10_live_name_takeover.1 demoBase 1 "alice" "123456" 1000 demoJoined
    (by decide)
  have hb := C10_live_name_takeover.2 demoJoined 1 2 "alice" "123456" 2000
    (by decide) (by decide) (by decide) (by decide) (by decide) (by decide)
  exact ⟨ha, hb.1, hb.2.1, hb.2.2⟩

end NTS
